import Mathlib

/-!
Verification of the CV-Backend repository (FastAPI + Groq/Tavily integration glue).

Shallow embedding conventions:
- JSON values produced by `json.loads` are modelled by the inductive type `Json`
  (numbers as `Rat`, covering both Python ints and floats).
- Each chat-completion call site is modelled by an oracle parameter.  The oracle's
  arguments are exactly the dynamic values interpolated into the prompt at that call
  site, so the data flow between pipeline stages is preserved; the oracle's result
  (`CallResult`) distinguishes a raised API call, a reply whose content is not valid
  JSON, and a successfully parsed JSON reply.
- External HTTP/network calls (requests, Tavily, the Puppeteer PDF server) are
  likewise oracle parameters.
- Fallible Python code is modelled in `Except String`; the string carries the
  exception message where the source specifies one.
-/

namespace CVBackend

/-- A JSON value as returned by Python's `json.loads`.  Python ints and floats are
both modelled as `Rat`; object fields keep their textual order. -/
inductive Json where
  | null : Json
  | bool (b : Bool) : Json
  | num (q : Rat) : Json
  | str (s : String) : Json
  | arr (items : List Json) : Json
  | obj (fields : List (String × Json)) : Json

/-- Python truthiness (`bool(v)`) of a decoded JSON value. -/
def jTruthy : Json → Bool
  | .null => false
  | .bool b => b
  | .num q => q != 0
  | .str s => s != ""
  | .arr xs => !xs.isEmpty
  | .obj fs => !fs.isEmpty

/-- `d.get(k, default)` restricted to values already known to be dicts. -/
def lookupD (fs : List (String × Json)) (k : String) (d : Json) : Json :=
  (fs.lookup k).getD d

/-- `d.get(k, default)` on a decoded JSON value; raises (AttributeError) when the
value is not a dict, which the embedding reports as `Except.error`. -/
def Json.get (j : Json) (k : String) (d : Json) : Except String Json :=
  match j with
  | .obj fs => .ok (lookupD fs k d)
  | _ => .error "AttributeError: .get on a non-dict"

/-- ASCII lower-casing of one character (`str.lower()` on the ASCII range). -/
def lowAscii (c : Char) : Char :=
  if c.toNat >= 65 && c.toNat <= 90 then Char.ofNat (c.toNat + 32) else c

/-- Python `s.lower()` (ASCII range; filenames and URLs in the claims are ASCII). -/
def pyLower (s : String) : String :=
  String.mk (s.data.map lowAscii)

/-- Python `s.endswith(suffix)`. -/
def pyEndsWith (s suffix : String) : Bool :=
  List.isSuffixOf suffix.data s.data

/-- Python `s.startswith(p)`. -/
def pyStartsWith (s p : String) : Bool :=
  List.isPrefixOf p.data s.data

/-- Result of one chat-completion call site: the HTTP/SDK call raised, or the reply
content was not valid JSON, or `json.loads` of the (stripped) content succeeded. -/
inductive CallResult where
  | raised : CallResult
  | invalid : CallResult
  | ok (j : Json) : CallResult

mutual
/-- Python's `str()` on a decoded JSON value (container rendering approximated;
no theorem below depends on the exact text of a rendered container). -/
def pyStr : Json → String
  | .null => "None"
  | .bool b => if b then "True" else "False"
  | .num q => if q.den == 1 then toString q.num else toString q
  | .str s => s
  | .arr xs => "[" ++ pyStrList xs ++ "]"
  | .obj fs => "\x7b" ++ pyStrFields fs ++ "\x7d"

def pyStrList : List Json → String
  | [] => ""
  | [x] => pyStr x
  | x :: xs => pyStr x ++ ", " ++ pyStrList xs

def pyStrFields : List (String × Json) → String
  | [] => ""
  | [(k, v)] => k ++ ": " ++ pyStr v
  | (k, v) :: fs => k ++ ": " ++ pyStr v ++ ", " ++ pyStrFields fs
end

/-! ## Template shape checkers

The claim under C1 speaks of "exactly the keys and value types" of the three
templates `JOB_TEMPLATE`, `RESUME_TEMPLATE` and `ANALYSIS_TEMPLATE` declared in
`job_parser.py`, `resume_parser.py` and `candidate_analysis.py`.  The checkers
below demand exactly the template's keys on every object and the template's value
type (string / number / list / object) at every position. -/

def isStrJ : Json → Bool
  | .str _ => true
  | _ => false

def isNumJ : Json → Bool
  | .num _ => true
  | _ => false

def isArrJ : Json → Bool
  | .arr _ => true
  | _ => false

/-- The object has exactly the given keys, in order. -/
def objHasKeys (j : Json) (ks : List String) : Bool :=
  match j with
  | .obj fs => fs.map Prod.fst == ks
  | _ => false

/-- Field access used by the shape checkers (`null` when absent or not a dict). -/
def fieldOf (j : Json) (k : String) : Json :=
  match j with
  | .obj fs => lookupD fs k .null
  | _ => .null

/-- Shape of `JOB_TEMPLATE` (job_parser.py lines 49-74). -/
def matchesJobTemplate (j : Json) : Bool :=
  objHasKeys j ["job_title", "company", "job_details", "requirements",
    "responsibilities", "core_competencies_needed", "job_description_raw",
    "application_url"]
  && isStrJ (fieldOf j "job_title")
  && objHasKeys (fieldOf j "company") ["name", "location", "industry"]
  && isStrJ (fieldOf (fieldOf j "company") "name")
  && isStrJ (fieldOf (fieldOf j "company") "location")
  && isStrJ (fieldOf (fieldOf j "company") "industry")
  && objHasKeys (fieldOf j "job_details")
      ["employment_type", "work_mode", "experience_required", "salary_range", "posted_date"]
  && isStrJ (fieldOf (fieldOf j "job_details") "employment_type")
  && isStrJ (fieldOf (fieldOf j "job_details") "work_mode")
  && isStrJ (fieldOf (fieldOf j "job_details") "experience_required")
  && isStrJ (fieldOf (fieldOf j "job_details") "salary_range")
  && isStrJ (fieldOf (fieldOf j "job_details") "posted_date")
  && objHasKeys (fieldOf j "requirements")
      ["must_have_skills", "nice_to_have_skills", "education", "experience_years", "certifications"]
  && isArrJ (fieldOf (fieldOf j "requirements") "must_have_skills")
  && isArrJ (fieldOf (fieldOf j "requirements") "nice_to_have_skills")
  && isArrJ (fieldOf (fieldOf j "requirements") "education")
  && isNumJ (fieldOf (fieldOf j "requirements") "experience_years")
  && isArrJ (fieldOf (fieldOf j "requirements") "certifications")
  && isArrJ (fieldOf j "responsibilities")
  && isArrJ (fieldOf j "core_competencies_needed")
  && isStrJ (fieldOf j "job_description_raw")
  && isStrJ (fieldOf j "application_url")

/-- Shape of `RESUME_TEMPLATE` (resume_parser.py lines 62-128). -/
def matchesResumeTemplate (j : Json) : Bool :=
  objHasKeys j ["candidate_name", "contact_info", "current_role", "experience_years",
    "core_competencies", "skills", "education", "work_experience", "achievements", "projects"]
  && isStrJ (fieldOf j "candidate_name")
  && objHasKeys (fieldOf j "contact_info") ["email", "phone", "linkedin", "portfolio", "location"]
  && isStrJ (fieldOf (fieldOf j "contact_info") "email")
  && isStrJ (fieldOf (fieldOf j "contact_info") "phone")
  && isStrJ (fieldOf (fieldOf j "contact_info") "linkedin")
  && isStrJ (fieldOf (fieldOf j "contact_info") "portfolio")
  && isStrJ (fieldOf (fieldOf j "contact_info") "location")
  && isStrJ (fieldOf j "current_role")
  && isNumJ (fieldOf j "experience_years")
  && isArrJ (fieldOf j "core_competencies")
  && isArrJ (fieldOf j "skills")
  && isArrJ (fieldOf j "education")
  && isArrJ (fieldOf j "work_experience")
  && isArrJ (fieldOf j "achievements")
  && isArrJ (fieldOf j "projects")

/-- Shape of `ANALYSIS_TEMPLATE` (candidate_analysis.py lines 55-97). -/
def matchesAnalysisTemplate (j : Json) : Bool :=
  objHasKeys j ["overall_analysis", "charts", "profile_highlights", "improvement_suggestions"]
  && objHasKeys (fieldOf j "overall_analysis")
      ["overall_match_score", "skills_match", "experience_match", "education_match",
       "certifications_match", "missing_skills_count", "ats_score"]
  && isNumJ (fieldOf (fieldOf j "overall_analysis") "overall_match_score")
  && isNumJ (fieldOf (fieldOf j "overall_analysis") "skills_match")
  && isNumJ (fieldOf (fieldOf j "overall_analysis") "experience_match")
  && isNumJ (fieldOf (fieldOf j "overall_analysis") "education_match")
  && isNumJ (fieldOf (fieldOf j "overall_analysis") "certifications_match")
  && isNumJ (fieldOf (fieldOf j "overall_analysis") "missing_skills_count")
  && isNumJ (fieldOf (fieldOf j "overall_analysis") "ats_score")
  && objHasKeys (fieldOf j "charts")
      ["skill_match_distribution", "experience_comparison", "word_cloud_keywords",
       "career_timeline", "resume_effectiveness"]
  && objHasKeys (fieldOf (fieldOf j "charts") "skill_match_distribution")
      ["matched", "missing", "partially_matched"]
  && isNumJ (fieldOf (fieldOf (fieldOf j "charts") "skill_match_distribution") "matched")
  && isNumJ (fieldOf (fieldOf (fieldOf j "charts") "skill_match_distribution") "missing")
  && isNumJ (fieldOf (fieldOf (fieldOf j "charts") "skill_match_distribution") "partially_matched")
  && objHasKeys (fieldOf (fieldOf j "charts") "experience_comparison")
      ["required_experience_years", "candidate_experience_years"]
  && isNumJ (fieldOf (fieldOf (fieldOf j "charts") "experience_comparison") "required_experience_years")
  && isNumJ (fieldOf (fieldOf (fieldOf j "charts") "experience_comparison") "candidate_experience_years")
  && isArrJ (fieldOf (fieldOf j "charts") "word_cloud_keywords")
  && isArrJ (fieldOf (fieldOf j "charts") "career_timeline")
  && objHasKeys (fieldOf (fieldOf j "charts") "resume_effectiveness") ["gauge_score"]
  && isNumJ (fieldOf (fieldOf (fieldOf j "charts") "resume_effectiveness") "gauge_score")
  && objHasKeys (fieldOf j "profile_highlights") ["publications", "volunteer_work"]
  && isArrJ (fieldOf (fieldOf j "profile_highlights") "publications")
  && isArrJ (fieldOf (fieldOf j "profile_highlights") "volunteer_work")
  && objHasKeys (fieldOf j "improvement_suggestions")
      ["textual_feedback", "recommended_courses", "skill_gap_closure_plan", "resume_optimization_tips"]
  && isArrJ (fieldOf (fieldOf j "improvement_suggestions") "textual_feedback")
  && isArrJ (fieldOf (fieldOf j "improvement_suggestions") "recommended_courses")
  && isArrJ (fieldOf (fieldOf j "improvement_suggestions") "skill_gap_closure_plan")
  && isArrJ (fieldOf (fieldOf j "improvement_suggestions") "resume_optimization_tips")

/-! ## Job parser (services/job_parser.py) -/

/-- `get_job_details(text, url)`: builds the prompt from `text` and `url`, calls
Groq, strips and `json.loads` the content, returning the parsed value unchanged;
the try/except turns both an API failure and a JSON decode failure into
`Exception("Failed to parse job posting: ...")`.  The `llm` oracle stands for the
chat-completion call; its arguments are the prompt's dynamic parts. -/
def get_job_details (llm : String → String → CallResult) (text url : String) :
    Except String Json :=
  match llm text url with
  | .ok j => .ok j
  | .raised => .error "Failed to parse job posting: api call raised"
  | .invalid => .error "Failed to parse job posting: invalid JSON"

/-! ### clean_text (job_parser.py lines 97-103)

`clean_text` applies, in order, `re.sub(r'\s+', ' ', ...)`, `re.sub(r'\n+', ' ', ...)`,
`re.sub(r'\t+', ' ', ...)`, `re.sub(r'\s{2,}', ' ', ...)` and finally `str.strip()`.
The character-level embedding below implements each substitution directly. -/

/-- The characters matched by `\s` (and stripped by `str.strip()`); the embedding
covers the ASCII whitespace class. -/
def isPySpace (c : Char) : Bool :=
  c == ' ' || c == '\t' || c == '\n' || c == '\r' || c == '\x0b' || c == '\x0c'

/-- Replace every maximal nonempty run of characters satisfying `p` by the single
character `r` (the effect of `re.sub(p+, r, ...)`).  The flag records whether the
previous character belonged to a run whose replacement was already emitted. -/
def replaceRunsAux (p : Char → Bool) (r : Char) : Bool → List Char → List Char
  | _, [] => []
  | inRun, c :: cs =>
    if p c then
      if inRun then replaceRunsAux p r true cs
      else r :: replaceRunsAux p r true cs
    else c :: replaceRunsAux p r false cs

def replaceRuns (p : Char → Bool) (r : Char) (l : List Char) : List Char :=
  replaceRunsAux p r false l

/-- Replace every maximal run of length ≥ 2 of characters satisfying `p` by the
single character `r`, leaving runs of length 1 unchanged
(the effect of `re.sub(p{2,}, r, ...)`). -/
def replaceRuns2Aux (p : Char → Bool) (r : Char) : Bool → List Char → List Char
  | _, [] => []
  | inRun, c :: cs =>
    if p c then
      if inRun then replaceRuns2Aux p r true cs
      else
        match cs with
        | c2 :: _ =>
          if p c2 then r :: replaceRuns2Aux p r true cs
          else c :: replaceRuns2Aux p r false cs
        | [] => [c]
    else c :: replaceRuns2Aux p r false cs

def replaceRuns2 (p : Char → Bool) (r : Char) (l : List Char) : List Char :=
  replaceRuns2Aux p r false l

/-- `str.strip()`: drop leading and trailing whitespace. -/
def stripChars (l : List Char) : List Char :=
  ((l.dropWhile isPySpace).reverse.dropWhile isPySpace).reverse

/-- The four substitutions and final strip of `clean_text`, at the character
level. -/
def cleanChars (l : List Char) : List Char :=
  stripChars
    (replaceRuns2 isPySpace ' '
      (replaceRuns (fun c => c == '\t') ' '
        (replaceRuns (fun c => c == '\n') ' '
          (replaceRuns isPySpace ' ' l))))

/-- `clean_text(text)` from job_parser.py. -/
def clean_text (s : String) : String :=
  String.mk (cleanChars s.data)

/-- `estimate_tokens(text, model)`: tiktoken when available, else the `len(text)//4`
fallback.  The optional `enc` oracle models `encoding_for_model` (none = it raised). -/
def estimate_tokens (enc : Option (String → Nat)) (text : String) : Nat :=
  match enc with
  | some f => f text
  | none => text.length / 4

/-- `fetch_webpage(url)`: the `get` oracle models `requests.get` (none = the request
raised), returning the status code and body text otherwise. -/
def fetch_webpage (get : String → Option (Nat × String)) (url : String) :
    Except String String :=
  match get url with
  | none => .error "Error fetching webpage: request raised"
  | some (status, body) =>
    if status == 200 then .ok body
    else .error ("Error fetching webpage: Failed to fetch webpage. Status code: " ++ toString status)

/-- Oracles for the `parse_job_from_url` pipeline.  `extract` models
`extract_text_content` (BeautifulSoup selection; its result is already cleaned). -/
structure JobOracles where
  get : String → Option (Nat × String)
  extract : String → String
  enc : Option (String → Nat)
  llm : String → String → CallResult

/-- `parse_job_from_url(url)` (job_parser.py lines 212-229): validate the URL shape,
fetch the page, extract the text, truncate token-heavy pages to 400000 characters,
then run `get_job_details`. -/
def parse_job_from_url (o : JobOracles) (url : String) : Except String Json :=
  if url == "" || !(pyStartsWith url "http://" || pyStartsWith url "https://") then
    .error "Invalid URL format. Must start with http:// or https://"
  else do
    let html ← fetch_webpage o.get url
    let text := o.extract html
    let tokenCount := estimate_tokens o.enc text
    let text := if tokenCount > 120000 then text.take 400000 else text
    get_job_details o.llm text url

/-! ## Resume parser (services/resume_parser.py) -/

/-- `get_resume_summary(text)`: prompt built from the resume text, reply parsed by
`json.loads` and returned unchanged; API and decode failures become
`Exception("Failed to parse resume: ...")`. -/
def get_resume_summary (llm : String → CallResult) (text : String) : Except String Json :=
  match llm text with
  | .ok j => .ok j
  | .raised => .error "Failed to parse resume: api call raised"
  | .invalid => .error "Failed to parse resume: invalid JSON"

/-- An uploaded file: its filename plus the text each extraction library would
produce from its bytes (PyPDF2 for PDF, python-docx for DOCX). -/
structure UploadFile where
  filename : String
  pdfText : String
  docxText : String

/-- `parse_resume(file)` (resume_parser.py lines 204-221): dispatch on the
lower-cased filename suffix; unsupported suffixes raise `ValueError` before the
LLM is consulted. -/
def parse_resume (llm : String → CallResult) (f : UploadFile) : Except String Json :=
  if pyEndsWith (pyLower f.filename) ".pdf" then get_resume_summary llm f.pdfText
  else if pyEndsWith (pyLower f.filename) ".docx" then get_resume_summary llm f.docxText
  else .error "Only PDF/DOCX supported"

/-! ## Candidate analysis (services/candidate_analysis.py) -/

/-- One record assembled by `_fetch_certifications_with_tavily` for a search hit. -/
structure TavilyRec where
  skill : String
  title : String
  url : String
  content : String
deriving DecidableEq

/-- One normalized course produced by `_rank_certifications_with_groq`. -/
structure Course where
  name : String
  platform : String
  url : String
deriving DecidableEq

/-- Python's `str(x) if isinstance(x, (str, int, float))` filter used on reply
items: strings, numbers and bools (a bool is an int in Python) pass; `None`,
lists and dicts are dropped. -/
def coerceScalar : Json → Option String
  | .str s => some s
  | .num q => some (pyStr (.num q))
  | .bool b => some (pyStr (.bool b))
  | _ => none

/-- `_extract_missing_skills_via_groq` (candidate_analysis.py lines 290-328): the
completion call may raise (propagates); a JSON decode failure or a non-list
`missing_skills` value falls through to `return []`. -/
def extract_missing_skills_via_groq (reply : CallResult) : Except String (List String) :=
  match reply with
  | .raised => .error "groq call raised"
  | .invalid => .ok []
  | .ok j =>
    match j with
    | .obj fs =>
      match lookupD fs "missing_skills" (.arr []) with
      | .arr items => .ok (items.filterMap coerceScalar)
      | _ => .ok []
    | _ => .ok []

/-- `_expand_skills_via_groq` (lines 193-219): the completion call may raise
(propagates); any exception inside the try (JSON decode failure, or iterating a
non-iterable `items` value) returns `missing_skills` instead.  Iterating a string
yields its characters and iterating a dict yields its keys, as in Python. -/
def expand_skills_via_groq (reply : CallResult) (missing_skills : List String) :
    Except String (List String) :=
  match reply with
  | .raised => .error "groq call raised"
  | .invalid => .ok missing_skills
  | .ok j =>
    match j with
    | .obj fs =>
      match lookupD fs "items" (.arr []) with
      | .arr items => .ok (items.filterMap coerceScalar)
      | .str s => .ok (s.data.map (fun c => String.mk [c]))
      | .obj fs2 => .ok ((fs2.map Prod.fst).filterMap (fun k => coerceScalar (.str k)))
      | _ => .ok missing_skills
    | _ => .ok missing_skills

/-- `_fetch_certifications_with_tavily` (lines 222-243): one Tavily query per
expanded skill; a raised search call is skipped (`continue`).  The `search` oracle
models `tavily_client.search` together with the per-result field extraction
(`results[i].get("title"/"url"/"content")[:300]`); `none` means the call raised.
When `TAVILY_API_KEY` is absent the function returns `[]` immediately. -/
def fetch_certifications_with_tavily (tavilyKey : Bool)
    (search : String → Option (List TavilyRec)) (expanded : List String) :
    List TavilyRec :=
  if !tavilyKey then []
  else expanded.flatMap (fun skill =>
    match search ("best certifications for " ++ skill ++ " developers") with
    | none => []
    | some recs => recs.map (fun r => { r with skill := skill }))

/-- `str(it.get(k, ""))` for one item of the ranked-courses reply; items that are
not dicts raise inside the comprehension, which the enclosing try turns into
`return []`. -/
def courseOfItem : Json → Option Course
  | .obj fs =>
    some { name := pyStr (lookupD fs "name" (.str ""))
         , platform := pyStr (lookupD fs "platform" (.str ""))
         , url := pyStr (lookupD fs "url" (.str "")) }
  | _ => none

/-- `_rank_certifications_with_groq` (lines 246-287): the completion call may raise
(propagates); any exception inside the try (decode failure, non-dict item, or a
non-list `items` value whose iteration misbehaves) yields `[]`; otherwise the
items are normalized and filtered to those with nonempty name and url. -/
def rank_certifications_with_groq (reply : CallResult) : Except String (List Course) :=
  match reply with
  | .raised => .error "groq call raised"
  | .invalid => .ok []
  | .ok j =>
    match j with
    | .obj fs =>
      match lookupD fs "items" (.arr []) with
      | .arr items =>
        match items.mapM courseOfItem with
        | some out => .ok (out.filter (fun x => x.name != "" && x.url != ""))
        | none => .ok []
      | _ => .ok []
    | _ => .ok []

/-- The oracles of the five-stage analysis pipeline.  Each Groq oracle's arguments
are the dynamic values interpolated into that call's prompt: the final call's
prompt contains `job_data`, `resume_data`, `missing_skills` and
`recommended_courses`; the ranking call's prompt contains `missing_skills` and
the first 12 search results. -/
structure AnalysisOracles where
  tavilyKey : Bool
  extractReply : Json → Json → CallResult
  expandReply : List String → CallResult
  search : String → Option (List TavilyRec)
  rankReply : List String → List TavilyRec → CallResult
  finalReply : Json → Json → List String → List Course → CallResult

/-- `generate_candidate_analysis(job_data, resume_data)` (lines 104-190):
`_tavily()` raises up front when the key is missing; then the five stages run in
order, each consuming the previous stage's output; the final reply is decoded by
`json.loads` (not guarded by any try) and returned unchanged. -/
def generate_candidate_analysis (o : AnalysisOracles) (job_data resume_data : Json) :
    Except String Json :=
  if !o.tavilyKey then
    .error "TAVILY_API_KEY is required for course recommendations. Set it in your .env."
  else do
    let missing_skills ← extract_missing_skills_via_groq (o.extractReply job_data resume_data)
    let expanded_skills ← expand_skills_via_groq (o.expandReply missing_skills) missing_skills
    let search_results := fetch_certifications_with_tavily o.tavilyKey o.search expanded_skills
    let recommended_courses ←
      rank_certifications_with_groq (o.rankReply missing_skills (search_results.take 12))
    match o.finalReply job_data resume_data missing_skills recommended_courses with
    | .ok j => .ok j
    | .raised => .error "groq call raised"
    | .invalid => .error "json.loads raised on final reply"

/-! ## Interview prep (services/interview_prep.py) -/

/-- Shared reply handling of both interview functions (lines 94-110 and 168-182):
decode the reply, take `obj.get("items", [])`, raise `ValueError` when that value
is not a list, else return `[str(x) for x in items]`; the enclosing try re-raises
everything as `Exception(prefix + ...)`. -/
def interviewItems (p : String) (reply : CallResult) : Except String (List String) :=
  match reply with
  | .raised => .error (p ++ "api call raised")
  | .invalid => .error (p ++ "invalid JSON")
  | .ok j =>
    match j with
    | .obj fs =>
      match lookupD fs "items" (.arr []) with
      | .arr items => .ok (items.map pyStr)
      | _ => .error (p ++ "Model returned invalid structure: 'items' is not a list")
    | _ => .error (p ++ "AttributeError")

/-- `generate_interview_questions(job_data, resume_data, interview_type, count)`. -/
def generate_interview_questions (reply : CallResult) : Except String (List String) :=
  interviewItems "Failed to generate questions: " reply

/-- `generate_interview_answers(job_data, resume_data, interview_type, questions)`. -/
def generate_interview_answers (reply : CallResult) : Except String (List String) :=
  interviewItems "Failed to generate answers: " reply

/-- One question/answer pair of the `/interview/generate` response. -/
structure QAItem where
  question : String
  answer : String
deriving DecidableEq

/-- Oracles of the `/interview/generate` endpoint: the questions prompt
interpolates `job_data`, `resume_data`, `interview_type` and `count`; the answers
prompt interpolates `job_data`, `resume_data`, `interview_type` and the questions
produced by the first call. -/
structure InterviewOracles where
  questionsReply : Json → Json → String → Int → CallResult
  answersReply : Json → Json → String → List String → CallResult

/-- Core of the `/interview/generate` route (routes/job_seeker.py lines 357-366,
after the saved analysis is loaded): generate questions, then answers for those
questions, then pair them, padding a missing answer with `""`. -/
def generate_interview (o : InterviewOracles) (job_data resume_data : Json)
    (interview_type : String) (count : Int) : Except String (List QAItem) := do
  let questions ← generate_interview_questions
    (o.questionsReply job_data resume_data interview_type count)
  let answers ← generate_interview_answers
    (o.answersReply job_data resume_data interview_type questions)
  .ok ((List.range questions.length).map (fun i =>
    { question := questions.getD i "", answer := answers.getD i "" }))

/-! ## Resume enhancer (services/resume_enhancer.py) -/

/-- `pat` occurs as a contiguous sublist of `l`. -/
def listInfix (pat : List Char) : List Char → Bool
  | [] => List.isPrefixOf pat []
  | c :: tl => List.isPrefixOf pat (c :: tl) || listInfix pat tl

/-- `pat` occurs as a substring of `s` (Python `pat in s`). -/
def containsSub (s pat : String) : Bool :=
  listInfix pat.data s.data

/-- A response of the external Puppeteer PDF server, as seen through `requests`:
status code, the `Content-Type` header (`""` when absent) and the body bytes. -/
structure HttpResponse where
  status : Nat
  contentType : String
  content : String
deriving DecidableEq

/-- `_generate_pdf_via_puppeteer_api(html)` (lines 120-128): POST the HTML; on a
200 response whose `Content-Type` starts with `application/pdf` return the body,
else (or when `requests.post` raised, modelled by `none`) return `None`. -/
def generate_pdf_via_puppeteer_api (post : Option HttpResponse) : Option String :=
  match post with
  | none => none
  | some resp =>
    if resp.status == 200 && pyStartsWith resp.contentType "application/pdf" then
      some resp.content
    else none

/-- `_call_groq_generate_html` (lines 63-117): decode the reply (no try: a raised
call or invalid JSON propagates), take `data.get("html", "")`, and raise
`ValueError("Groq did not return valid HTML.")` when the html is falsy or does not
contain `"<html"` case-insensitively.  A truthy non-string html would raise on
`.lower()`. -/
def call_groq_generate_html (reply : CallResult) : Except String String :=
  match reply with
  | .raised => .error "groq call raised"
  | .invalid => .error "json.loads raised"
  | .ok j => do
    let v ← j.get "html" (.str "")
    match v with
    | .str html =>
      if html == "" || !containsSub (pyLower html) "<html" then
        .error "Groq did not return valid HTML."
      else .ok html
    | other =>
      if !jTruthy other then .error "Groq did not return valid HTML."
      else .error "AttributeError: .lower on a non-string"

/-- The `/resume/enhance` result dict: `pdf_path` is absent when `return_pdf` is
false (outer `none`), and otherwise holds `None` or the saved file's path. -/
structure EnhanceResult where
  html : String
  pdf_path : Option (Option String)
deriving DecidableEq

/-- Oracles for `generate_enhanced_resume`: the template file contents (`none` =
`FileNotFoundError`), the Groq call (whose prompt interpolates the template HTML,
`resume_data`, `job_data` and `optimization_tips`), the PDF server response for a
given HTML body, and the hex of the generated `uuid4`. -/
structure EnhanceOracles where
  template : Option String
  llm : String → Json → Json → List String → CallResult
  post : String → Option HttpResponse
  uuidHex : String

/-- `generate_enhanced_resume(resume_data, job_data, optimization_tips,
template_id, return_pdf)` (lines 131-171): load the template, produce the final
HTML via one Groq call, and when `return_pdf` is true try the PDF server, saving
`Resumes/resume-<uuid>.pdf` only when it returned nonempty bytes (`if pdf_bytes:`
is false on an empty body). -/
def generate_enhanced_resume (o : EnhanceOracles) (resume_data job_data : Json)
    (optimization_tips : List String) (return_pdf : Bool) :
    Except String EnhanceResult := do
  let template_html ← match o.template with
    | some t => Except.ok t
    | none => Except.error "HTML template not found"
  let final_html ← call_groq_generate_html
    (o.llm template_html resume_data job_data optimization_tips)
  if return_pdf then
    match generate_pdf_via_puppeteer_api (o.post final_html) with
    | some bytes =>
      if bytes != "" then
        .ok { html := final_html
            , pdf_path := some (some ("Resumes/resume-" ++ o.uuidHex ++ ".pdf")) }
      else .ok { html := final_html, pdf_path := some none }
    | none => .ok { html := final_html, pdf_path := some none }
  else
    .ok { html := final_html, pdf_path := none }

/-! ## Auth (routes/auth.py) -/

/-- A stored user document, as written by `register`. -/
structure UserDoc where
  email : String
  password : String
  full_name : Option String
  role : String
  is_active : Bool
deriving DecidableEq

/-- The public view returned by `register` (and `/me`). -/
structure UserPublicV where
  id : String
  email : String
  full_name : Option String
  role : String
  is_active : Bool
deriving DecidableEq

/-- An HTTP error raised by a route handler. -/
structure HTTPError where
  status : Nat
  detail : String
deriving DecidableEq

/-- The payload of `POST /auth/register` (`UserCreate`). -/
structure RegisterPayload where
  email : String
  password : String
  full_name : Option String
  role : String
deriving DecidableEq

/-- The users collection, in insertion order.  MongoDB-generated ids are modelled
by the document's insertion index. -/
abbrev UsersStore := List UserDoc

/-- `register(payload)` (auth.py lines 69-92): reject with 400 when a document
with the email exists, else insert exactly one document whose password field is
`hash_password(payload.password)` — `hash` models `bcrypt.hashpw` with a fresh
salt — and return the public view.  The returned store is the updated
collection. -/
def register (hash : String → String) (st : UsersStore) (p : RegisterPayload) :
    UsersStore × Except HTTPError UserPublicV :=
  if st.any (fun d => d.email == p.email) then
    (st, .error { status := 400, detail := "User already exists" })
  else
    let doc : UserDoc :=
      { email := p.email, password := hash p.password, full_name := p.full_name
      , role := p.role, is_active := true }
    (st ++ [doc],
     .ok { id := toString st.length, email := p.email, full_name := p.full_name
         , role := p.role, is_active := true })

/-- `login(form_data)` (auth.py lines 94-102): look the user up by email and check
the submitted password against the stored `password` field with
`verify_password` — `verify` models `bcrypt.checkpw`.  On success a token for the
user's email and role is issued (modelled by the pair encoded in it). -/
def login (verify : String → String → Bool) (st : UsersStore)
    (email password : String) : Except HTTPError (String × String) :=
  match st.find? (fun d => d.email == email) with
  | none => .error { status := 400, detail := "Incorrect email or password" }
  | some user =>
    if verify password user.password then .ok (user.email, user.role)
    else .error { status := 400, detail := "Incorrect email or password" }

/-- The only operation that writes to the users collection. -/
inductive AuthEvent where
  | reg (p : RegisterPayload)

/-- State transition of the users collection under one request. -/
def authStep (hash : String → String) (st : UsersStore) (e : AuthEvent) : UsersStore :=
  match e with
  | .reg p => (register hash st p).1

/-- The users collection reached from the empty database by a request trace. -/
def runAuth (hash : String → String) (events : List AuthEvent) : UsersStore :=
  events.foldl (authStep hash) []

/-! ## /analyze mapping (routes/job_seeker.py lines 31-125) -/

/-- Python `float()` on a decoded JSON value: numbers pass through, bools become
0/1; other values raise.  (`float` of a numeric string would also succeed in
Python; no code path proved about below feeds a string here.) -/
def pyFloat : Json → Except String Rat
  | .num q => .ok q
  | .bool b => .ok (if b then 1 else 0)
  | _ => .error "TypeError: float() of a non-number"

/-- Python `int()` on a decoded JSON value: truncation toward zero for numbers,
0/1 for bools; other values raise. -/
def pyInt : Json → Except String Int
  | .num q => .ok (if q ≥ 0 then ⌊q⌋ else ⌈q⌉)
  | .bool b => .ok (if b then 1 else 0)
  | _ => .error "TypeError: int() of a non-number"

/-- Python addition of two decoded JSON numbers (bools count as ints). -/
def pyAdd (a b : Json) : Except String Rat := do
  let x ← pyFloat a
  let y ← pyFloat b
  .ok (x + y)

/-- Round-half-to-even on a rational, as Python's `round` (the embedding computes
exactly; float representation noise is not modelled). -/
def roundHalfEven (q : Rat) : Int :=
  if q - ⌊q⌋ < 1/2 then ⌊q⌋
  else if q - ⌊q⌋ > 1/2 then ⌊q⌋ + 1
  else if ⌊q⌋ % 2 == 0 then ⌊q⌋ else ⌊q⌋ + 1

/-- Python `round(x, 2)`. -/
def round2 (q : Rat) : Rat :=
  (roundHalfEven (q * 100) : Rat) / 100

/-- Python iteration over a decoded JSON value: lists yield elements, strings
yield one-character strings, dicts yield their keys; other values raise
`TypeError`. -/
def pyIterE : Json → Except String (List Json)
  | .arr xs => .ok xs
  | .str s => .ok (s.data.map (fun c => Json.str (String.mk [c])))
  | .obj fs => .ok (fs.map (fun kv => Json.str kv.1))
  | _ => .error "TypeError: not iterable"

structure Metrics where
  jobMatchScore : Rat
  atsScore : Rat
  leadershipNarrative : Rat
  quantitativeEvidence : Rat
deriving DecidableEq

structure Strength where
  label : String
  detail : String
deriving DecidableEq

structure ImprovementArea where
  label : String
  actions : List String
deriving DecidableEq

structure KeywordRec where
  keyword : String
  coverage : Rat
deriving DecidableEq

structure InterviewTopic where
  topic : String
  questions : List String
  coaching : String
deriving DecidableEq

/-- The `candidate` sub-dict (its values are taken from the parsed JSON as-is). -/
structure CandidateInfo where
  name : Json
  currentRole : Json
  targetRole : Json
  targetCompany : Json

/-- The dict returned by `_map_template_to_candidate_analysis`. -/
structure CandidateAnalysisOut where
  candidate : CandidateInfo
  metrics : Metrics
  summary : String
  strengths : List Strength
  improvementAreas : List ImprovementArea
  recommendedKeywords : List KeywordRec
  nextSteps : List String
  interviewTopics : List InterviewTopic
  resumeAngles : List Json

/-- `resume_data.get("candidate_name") or resume_data.get("contact_info", {}).get("name", "Candidate")`:
Python `or` takes the first value when truthy, else evaluates the fallback. -/
def pyOrElse (v : Json) (fallback : Except String Json) : Except String Json :=
  if jTruthy v then .ok v else fallback

/-- `if feedback: improvement_areas.append({...})` — the single improvement-area
entry built from a truthy `textual_feedback` value, `[]` otherwise. -/
def improvementAreasOf (feedback : Json) : Except String (List ImprovementArea) :=
  if jTruthy feedback then do
    let elems ← pyIterE feedback
    .ok [{ label := "Resume improvements", actions := (elems.map pyStr).take 6 }]
  else .ok []

/-- `words = charts.get("word_cloud_keywords", []) or []` followed by iterating
`words`: a falsy value yields `[]`, a truthy list yields its elements, any other
truthy value raises when iterated against `w.get`. -/
def wordsListOf (wordsJ : Json) : Except String (List Json) :=
  if !jTruthy wordsJ then .ok []
  else match wordsJ with
    | .arr xs => .ok xs
    | _ => .error "TypeError: iterating a non-list word cloud"

/-- The `w.get("frequency", 1) or 1` coercion feeding `max`: falsy values become
1; truthy numbers pass; a truthy bool is the number 1; anything else would raise
in the `max` comparison. -/
def freqForMax (f : Json) : Except String Rat :=
  if !jTruthy f then .ok 1
  else match f with
    | .num q => .ok q
    | .bool _ => .ok 1
    | _ => .error "TypeError: max of a non-number"

/-- `_map_template_to_candidate_analysis(template, resume_data, job_data)`
(routes/job_seeker.py lines 31-125), in source order.  Any exception it raises
propagates out of the `/analyze` handler. -/
def map_template_to_candidate_analysis (template resume_data job_data : Json) :
    Except String CandidateAnalysisOut := do
  let oa ← template.get "overall_analysis" (.obj [])
  let charts ← template.get "charts" (.obj [])
  let cn ← resume_data.get "candidate_name" .null
  let name ← pyOrElse cn (do
    let ci ← resume_data.get "contact_info" (.obj [])
    ci.get "name" (.str "Candidate"))
  let current_role ← resume_data.get "current_role" (.str "")
  let target_role ← job_data.get "job_title" (.str "Target Role")
  let target_company ← do
    let co ← job_data.get "company" (.obj [])
    co.get "name" (.str "Target Company")
  let overall ← do
    let v ← oa.get "overall_match_score" (.num 0)
    pyFloat v
  let ats ← do
    let v ← oa.get "ats_score" (.num 0)
    pyFloat v
  let gauge ← do
    let re ← charts.get "resume_effectiveness" (.obj [])
    re.get "gauge_score" (.num 0)
  let gaugeN ← pyFloat gauge
  let skillsJ ← oa.get "skills_match" (.num 0)
  let expJ ← oa.get "experience_match" (.num 0)
  let skillsPlusExp ← pyAdd skillsJ expJ
  let metrics : Metrics :=
    { jobMatchScore := round2 (overall / 100)
    , atsScore := round2 (ats / 100)
    , leadershipNarrative := round2 (min (1 : Rat) ((overall + gaugeN) / 200))
    , quantitativeEvidence := round2 (min (1 : Rat) (skillsPlusExp / 200)) }
  let skillsInt ← pyInt skillsJ
  let expInt ← pyInt expJ
  let atsJ ← oa.get "ats_score" (.num 0)
  let atsInt ← pyInt atsJ
  let strengths : List Strength :=
    [ { label := "Skills alignment"
      , detail := s!"Skills match at {skillsInt}% vs role requirements." }
    , { label := "Experience alignment"
      , detail := s!"Experience match at {expInt}% relative to benchmark." }
    , { label := "ATS readiness"
      , detail := s!"ATS score at {atsInt}% suggests good keyword coverage." } ]
  let impr ← template.get "improvement_suggestions" (.obj [])
  let feedback ← impr.get "textual_feedback" (.arr [])
  let improvement_areas ← improvementAreasOf feedback
  let wordsJ ← charts.get "word_cloud_keywords" (.arr [])
  let words ← wordsListOf wordsJ
  let wordObjs ← words.mapM (fun w => match w with
    | .obj fs => Except.ok fs
    | _ => Except.error "AttributeError: .get on a non-dict")
  let freqList ← wordObjs.mapM (fun fs => freqForMax (lookupD fs "frequency" (.num 1)))
  let max_freq := match (if freqList.isEmpty then [(1 : Rat)] else freqList) with
    | [] => (1 : Rat)
    | x :: xs => xs.foldl max x
  let mfDenom := if max_freq == 0 then (1 : Rat) else max_freq
  let kwPairs ← wordObjs.filterMapM (fun fs =>
    if jTruthy (lookupD fs "word" .null) then do
      let fr ← pyFloat (lookupD fs "frequency" (.num 0))
      Except.ok (some ({ keyword := pyStr (lookupD fs "word" (.str ""))
                       , coverage := round2 (fr / mfDenom) } : KeywordRec))
    else Except.ok none)
  let recommended_keywords := kwPairs.take 20
  let tips ← impr.get "resume_optimization_tips" (.arr [])
  let tipElems ← pyIterE tips
  let next_steps := (tipElems.map pyStr).take 8
  let kwTopics : List InterviewTopic :=
    if recommended_keywords.isEmpty then []
    else
      let top_kw := (recommended_keywords.take 3).map (·.keyword)
      [ { topic := "Role-specific keywords"
        , questions := top_kw.map
            (fun kw => s!"How have you demonstrated {kw} in recent projects?")
        , coaching := "Tie answers to measurable outcomes and mention stakeholder impact." } ]
  let topics := kwTopics ++
    [ { topic := "Experience depth"
      , questions :=
          [ "Walk through a flagship project aligned to this role."
          , "Describe a difficult trade-off you made and how you communicated it."
          , "How do you measure success and prevent regressions?" ]
      , coaching := "Use concise STAR framing and quantify results." }
    , { topic := "Leadership & collaboration"
      , questions :=
          [ "Share a time you aligned conflicting senior stakeholders."
          , "How do you mentor and scale team practices?"
          , "Tell us about a risk you managed in an ambiguous situation." ]
      , coaching := "Emphasize cross-functional rituals and decision cadence." } ]
  .ok
    { candidate :=
        { name := name, currentRole := current_role
        , targetRole := target_role, targetCompany := target_company }
    , metrics := metrics
    , summary := "Analysis generated from your resume and the target role."
    , strengths := strengths
    , improvementAreas := improvement_areas
    , recommendedKeywords := recommended_keywords
    , nextSteps := next_steps
    , interviewTopics := topics
    , resumeAngles := [] }

/-- Turn a raw (unhandled) exception into the 500 response FastAPI returns. -/
def err500 {α : Type} (x : Except String α) : Except HTTPError α :=
  x.mapError (fun e => { status := 500, detail := e })

/-- Oracles of the whole `/analyze` request. -/
structure AnalyzeOracles where
  job : JobOracles
  resumeLlm : String → CallResult
  analysis : AnalysisOracles

/-- The parts of the `/analyze` response body relevant to the claims: the mapped
`analysis` object, the raw model `template`, and `metadata.matchScore`. -/
structure AnalyzeResponse where
  analysis : CandidateAnalysisOut
  template : Json
  matchScore : Int

/-- Core of the `/analyze` handler (routes/job_seeker.py lines 128-181): parse the
job URL and the resume, run the analysis pipeline (failures become HTTP 500
"Analysis failed: ..."), map the template for the UI, and compute
`metadata.matchScore = int(template.get("overall_analysis", {}).get("overall_match_score", 0))`. -/
def analyze_resume (o : AnalyzeOracles) (job_url : String) (file : UploadFile) :
    Except HTTPError AnalyzeResponse :=
  if job_url == "" then .error { status := 400, detail := "job_url is required" }
  else do
    let job_data ← err500 (parse_job_from_url o.job job_url)
    let resume_data ← err500 (parse_resume o.resumeLlm file)
    let template ← (generate_candidate_analysis o.analysis job_data resume_data).mapError
      (fun e => { status := 500, detail := "Analysis failed: " ++ e })
    let analysis ← err500 (map_template_to_candidate_analysis template resume_data job_data)
    let msJ ← err500 (do
      let oaJ ← template.get "overall_analysis" (.obj [])
      oaJ.get "overall_match_score" (.num 0))
    let ms ← err500 (pyInt msJ)
    .ok { analysis := analysis, template := template, matchScore := ms }

mutual
/-- All numeric leaves occurring in a JSON value (used to state that a value was
*not* copied out of the model-produced JSON). -/
def numLeaves : Json → List Rat
  | .num q => [q]
  | .arr xs => numLeavesList xs
  | .obj fs => numLeavesFields fs
  | _ => []

def numLeavesList : List Json → List Rat
  | [] => []
  | x :: xs => numLeaves x ++ numLeavesList xs

def numLeavesFields : List (String × Json) → List Rat
  | [] => []
  | (_, v) :: fs => numLeaves v ++ numLeavesFields fs
end

/-! ## Helper lemmas -/

@[simp]
theorem ok_bind {ε α β : Type} (a : α) (f : α → Except ε β) :
    (Except.ok a >>= f) = f a := rfl

@[simp]
theorem error_bind {ε α β : Type} (e : ε) (f : α → Except ε β) :
    ((Except.error e : Except ε α) >>= f) = Except.error e := rfl

/-! ## C1 -/

/-- C1 fails on the code: `get_job_details` returns whatever JSON object the model
produced, with no key or type validation.  The single-key reply `{"foo": 1}` is
accepted and returned although it has none of `JOB_TEMPLATE`'s keys. -/
theorem get_job_details_no_validation_cex :
    get_job_details (fun _ _ => .ok (Json.obj [("foo", Json.num 1)])) "some text" "https://x"
      = .ok (Json.obj [("foo", Json.num 1)])
    ∧ matchesJobTemplate (Json.obj [("foo", Json.num 1)]) = false := by
  exact ⟨rfl, by decide⟩

/-- C1 (amended): the three reply handlers perform no shape validation or
coercion: each returns the `json.loads` result of the accepted reply unchanged,
so the returned dictionary has the template's keys and value types exactly when
the model's reply already has them. -/
theorem llm_replies_returned_unchanged :
    (∀ (llm : String → String → CallResult) (text url : String) (j : Json),
       llm text url = .ok j → get_job_details llm text url = .ok j)
  ∧ (∀ (llm : String → CallResult) (text : String) (j : Json),
       llm text = .ok j → get_resume_summary llm text = .ok j)
  ∧ (∀ (o : AnalysisOracles) (job resume r : Json),
       generate_candidate_analysis o job resume = .ok r →
       ∃ missing courses, o.finalReply job resume missing courses = .ok r) := by
  refine ⟨?_, ?_, ?_⟩
  · intro llm text url j h
    unfold get_job_details
    rw [h]
  · intro llm text j h
    unfold get_resume_summary
    rw [h]
  · intro o job resume r h
    unfold generate_candidate_analysis at h
    split at h
    · exact absurd h (by simp)
    · rcases hms : extract_missing_skills_via_groq (o.extractReply job resume) with e | ms <;>
        rw [hms] at h
      · simp at h
      · rw [ok_bind] at h
        rcases hex : expand_skills_via_groq (o.expandReply ms) ms with e | ex <;>
          rw [hex] at h
        · simp at h
        · rw [ok_bind] at h
          dsimp only at h
          rcases hrk : rank_certifications_with_groq
              (o.rankReply ms ((fetch_certifications_with_tavily o.tavilyKey o.search ex).take 12))
              with e | cs <;> rw [hrk] at h
          · simp at h
          · rw [ok_bind] at h
            refine ⟨ms, cs, ?_⟩
            rcases hf : o.finalReply job resume ms cs with _ | _ | j <;> rw [hf] at h
            · simp at h
            · simp at h
            · cases h; rfl

/-- Witness for the amended C1 at concrete inputs: each handler, fed a reply that
matches its template-shaped skeleton, returns it unchanged. -/
theorem llm_replies_returned_unchanged_witness :
    get_job_details (fun _ _ => .ok (Json.obj [("a", Json.str "b")])) "t" "u"
      = .ok (Json.obj [("a", Json.str "b")]) := by
  exact llm_replies_returned_unchanged.1 _ "t" "u" _ rfl

/-! ## C2 -/

/-- C2: whenever `generate_candidate_analysis` returns, it ran the four-stage
chain in order — missing skills (Groq), expanded skills (Groq, consuming the
missing skills), the Tavily search (consuming the expanded skills), ranked
courses (Groq, consuming the first 12 search results) — and the returned value is
exactly the parsed JSON of the final Groq call, whose prompt consumes the
missing skills and ranked courses. -/
theorem generate_candidate_analysis_chains_in_order
    (o : AnalysisOracles) (job resume r : Json)
    (h : generate_candidate_analysis o job resume = .ok r) :
    ∃ missing expanded courses,
      extract_missing_skills_via_groq (o.extractReply job resume) = .ok missing ∧
      expand_skills_via_groq (o.expandReply missing) missing = .ok expanded ∧
      rank_certifications_with_groq (o.rankReply missing
        ((fetch_certifications_with_tavily o.tavilyKey o.search expanded).take 12))
        = .ok courses ∧
      o.finalReply job resume missing courses = .ok r := by
  unfold generate_candidate_analysis at h
  split at h
  · exact absurd h (by simp)
  · rcases hms : extract_missing_skills_via_groq (o.extractReply job resume) with e | ms <;>
      rw [hms] at h
    · simp at h
    · rw [ok_bind] at h
      rcases hex : expand_skills_via_groq (o.expandReply ms) ms with e | ex <;>
        rw [hex] at h
      · simp at h
      · rw [ok_bind] at h
        dsimp only at h
        rcases hrk : rank_certifications_with_groq
            (o.rankReply ms ((fetch_certifications_with_tavily o.tavilyKey o.search ex).take 12))
            with e | cs <;> rw [hrk] at h
        · simp at h
        · rw [ok_bind] at h
          refine ⟨ms, ex, cs, rfl, hex, hrk, ?_⟩
          rcases hf : o.finalReply job resume ms cs with _ | _ | j <;> rw [hf] at h
          · simp at h
          · simp at h
          · cases h; rfl

/-- Witness for C2: a run in which every stage succeeds, at concrete oracles. -/
theorem generate_candidate_analysis_chains_in_order_witness :
    ∃ missing expanded courses,
      extract_missing_skills_via_groq
        ((AnalysisOracles.mk true
          (fun _ _ => .ok (.obj [("missing_skills", .arr [.str "Rust"])]))
          (fun _ => .ok (.obj [("items", .arr [.str "Tokio"])]))
          (fun _ => some [TavilyRec.mk "" "Cert" "https://c" "x"])
          (fun _ _ => .ok (.obj [("items", .arr
            [.obj [("name", .str "Cert"), ("platform", .str "P"), ("url", .str "https://c")]])]))
          (fun _ _ _ _ => .ok (.obj []))).extractReply (.obj []) (.obj []))
        = .ok missing ∧
      expand_skills_via_groq
        ((AnalysisOracles.mk true
          (fun _ _ => .ok (.obj [("missing_skills", .arr [.str "Rust"])]))
          (fun _ => .ok (.obj [("items", .arr [.str "Tokio"])]))
          (fun _ => some [TavilyRec.mk "" "Cert" "https://c" "x"])
          (fun _ _ => .ok (.obj [("items", .arr
            [.obj [("name", .str "Cert"), ("platform", .str "P"), ("url", .str "https://c")]])]))
          (fun _ _ _ _ => .ok (.obj []))).expandReply missing) missing
        = .ok expanded ∧
      rank_certifications_with_groq
        ((AnalysisOracles.mk true
          (fun _ _ => .ok (.obj [("missing_skills", .arr [.str "Rust"])]))
          (fun _ => .ok (.obj [("items", .arr [.str "Tokio"])]))
          (fun _ => some [TavilyRec.mk "" "Cert" "https://c" "x"])
          (fun _ _ => .ok (.obj [("items", .arr
            [.obj [("name", .str "Cert"), ("platform", .str "P"), ("url", .str "https://c")]])]))
          (fun _ _ _ _ => .ok (.obj []))).rankReply missing
          ((fetch_certifications_with_tavily true
            (fun _ => some [TavilyRec.mk "" "Cert" "https://c" "x"]) expanded).take 12))
        = .ok courses ∧
      (fun (_ _ : Json) (_ : List String) (_ : List Course) =>
          CallResult.ok (Json.obj [])) (.obj []) (.obj []) missing courses
        = .ok (.obj []) :=
  generate_candidate_analysis_chains_in_order _ (.obj []) (.obj []) (.obj []) rfl

/-! ## C4 -/

/-- C4: `parse_resume` accepts exactly the filenames whose lower-casing ends in
`.pdf` or `.docx`.  Any other filename yields the `ValueError` regardless of the
LLM oracle (so no LLM call can have been made), and accepted files return
`get_resume_summary` applied to the text extracted by the matching library. -/
theorem parse_resume_suffix_dispatch :
    (∀ (f : UploadFile) (llm llm2 : String → CallResult),
       pyEndsWith (pyLower f.filename) ".pdf" = false →
       pyEndsWith (pyLower f.filename) ".docx" = false →
       parse_resume llm f = .error "Only PDF/DOCX supported"
       ∧ parse_resume llm f = parse_resume llm2 f)
  ∧ (∀ (f : UploadFile) (llm : String → CallResult),
       pyEndsWith (pyLower f.filename) ".pdf" = true →
       parse_resume llm f = get_resume_summary llm f.pdfText)
  ∧ (∀ (f : UploadFile) (llm : String → CallResult),
       pyEndsWith (pyLower f.filename) ".pdf" = false →
       pyEndsWith (pyLower f.filename) ".docx" = true →
       parse_resume llm f = get_resume_summary llm f.docxText) := by
  refine ⟨?_, ?_, ?_⟩
  · intro f llm llm2 hp hd
    unfold parse_resume
    rw [hp, hd]
    exact ⟨rfl, rfl⟩
  · intro f llm hp
    unfold parse_resume
    rw [hp]
    rfl
  · intro f llm hp hd
    unfold parse_resume
    rw [hp, hd]
    rfl

/-- Witness for C4 at concrete files: `notes.txt` is rejected identically under
two different oracles, while `CV.PDF` and `cv.docx` are dispatched to the
respective extraction texts. -/
theorem parse_resume_suffix_dispatch_witness :
    (parse_resume (fun _ => .ok (.obj [])) (UploadFile.mk "notes.txt" "p" "d")
        = .error "Only PDF/DOCX supported"
      ∧ parse_resume (fun _ => .ok (.obj [])) (UploadFile.mk "notes.txt" "p" "d")
        = parse_resume (fun _ => .raised) (UploadFile.mk "notes.txt" "p" "d"))
    ∧ parse_resume (fun _ => .ok (.obj [])) (UploadFile.mk "CV.PDF" "p" "d")
        = get_resume_summary (fun _ => .ok (.obj [])) "p"
    ∧ parse_resume (fun _ => .ok (.obj [])) (UploadFile.mk "cv.docx" "p" "d")
        = get_resume_summary (fun _ => .ok (.obj [])) "d" :=
  ⟨parse_resume_suffix_dispatch.1 _ _ _ (by decide) (by decide),
   parse_resume_suffix_dispatch.2.1 _ _ (by decide),
   parse_resume_suffix_dispatch.2.2 _ _ (by decide) (by decide)⟩

/-! ## C9 -/

/-- C9: every url that is empty or lacks an `http://`/`https://` scheme makes
`parse_job_from_url` raise the `ValueError` under every oracle bundle — in
particular the result does not depend on the fetch, extraction or LLM oracles,
so neither a network fetch nor an LLM call influenced it. -/
theorem parse_job_from_url_rejects_bad_urls (url : String)
    (h : (url == "" || !(pyStartsWith url "http://" || pyStartsWith url "https://")) = true) :
    ∀ o o2 : JobOracles,
      parse_job_from_url o url = .error "Invalid URL format. Must start with http:// or https://"
      ∧ parse_job_from_url o url = parse_job_from_url o2 url := by
  have e : ∀ o : JobOracles,
      parse_job_from_url o url
        = .error "Invalid URL format. Must start with http:// or https://" := by
    intro o
    unfold parse_job_from_url
    rw [if_pos h]
  exact fun o o2 => ⟨e o, (e o).trans (e o2).symm⟩

/-- Witness for C9 at `url = "ftp://example.com"` and two distinct oracle
bundles. -/
theorem parse_job_from_url_rejects_bad_urls_witness :
    parse_job_from_url
        (JobOracles.mk (fun _ => some (200, "page")) id none (fun _ _ => .ok (.obj [])))
        "ftp://example.com"
      = .error "Invalid URL format. Must start with http:// or https://"
    ∧ parse_job_from_url
        (JobOracles.mk (fun _ => some (200, "page")) id none (fun _ _ => .ok (.obj [])))
        "ftp://example.com"
      = parse_job_from_url (JobOracles.mk (fun _ => none) id none (fun _ _ => .raised))
        "ftp://example.com" :=
  parse_job_from_url_rejects_bad_urls "ftp://example.com" (by decide) _ _

/-! ## C5 -/

/-- C5: the `/interview/generate` route performs exactly the two list-producing
LLM calls — questions first, then answers on those questions — and each function
errors when the reply's `items` field is not a list, else coerces every list
element to a string (`str(x)`). -/
theorem interview_generation_two_calls :
    (∀ (o : InterviewOracles) (job resume : Json) (t : String) (c : Int)
        (items : List QAItem),
       generate_interview o job resume t c = .ok items →
       ∃ questions answers,
         generate_interview_questions (o.questionsReply job resume t c) = .ok questions ∧
         generate_interview_answers (o.answersReply job resume t questions) = .ok answers ∧
         items = (List.range questions.length).map (fun i =>
           { question := questions.getD i "", answer := answers.getD i "" }))
  ∧ (∀ (fs : List (String × Json)),
       isArrJ (lookupD fs "items" (.arr [])) = false →
       (∃ e, generate_interview_questions (.ok (.obj fs)) = .error e)
       ∧ (∃ e, generate_interview_answers (.ok (.obj fs)) = .error e))
  ∧ (∀ (fs : List (String × Json)) (xs : List Json),
       lookupD fs "items" (.arr []) = .arr xs →
       generate_interview_questions (.ok (.obj fs)) = .ok (xs.map pyStr)
       ∧ generate_interview_answers (.ok (.obj fs)) = .ok (xs.map pyStr)) := by
  refine ⟨?_, ?_, ?_⟩
  · intro o job resume t c items h
    unfold generate_interview at h
    rcases hq : generate_interview_questions (o.questionsReply job resume t c) with e | qs <;>
      rw [hq] at h
    · simp at h
    · rw [ok_bind] at h
      rcases ha : generate_interview_answers (o.answersReply job resume t qs) with e | as <;>
        rw [ha] at h
      · simp at h
      · rw [ok_bind] at h
        cases h
        exact ⟨qs, as, rfl, ha, rfl⟩
  · intro fs hnl
    have eq : ∀ p, ∃ e, interviewItems p (.ok (.obj fs)) = .error e := by
      intro p
      rcases hv : lookupD fs "items" (.arr []) with _ | _ | _ | _ | xs | _
      case arr => rw [hv] at hnl; simp [isArrJ] at hnl
      all_goals exact ⟨p ++ "Model returned invalid structure: 'items' is not a list",
        by simp [interviewItems, hv]⟩
    exact ⟨eq _, eq _⟩
  · intro fs xs hv
    have eq : ∀ p, interviewItems p (.ok (.obj fs)) = .ok (xs.map pyStr) := by
      intro p
      simp [interviewItems, hv]
    exact ⟨eq _, eq _⟩

/-- Witness for C5: a concrete run pairing two questions with one answer (the
second answer padded to `""`), a reply whose `items` is a number is rejected, and
a reply whose `items` holds mixed scalars is coerced elementwise to strings. -/
theorem interview_generation_two_calls_witness :
    (∃ questions answers,
      generate_interview_questions
        ((InterviewOracles.mk
          (fun _ _ _ _ => .ok (.obj [("items", .arr [.str "q1", .str "q2"])]))
          (fun _ _ _ qs => .ok (.obj [("items", .arr [.str (String.append "a-" (qs.getD 0 ""))])]))).questionsReply
          (.obj []) (.obj []) "mixed" 6) = .ok questions ∧
      generate_interview_answers
        ((InterviewOracles.mk
          (fun _ _ _ _ => .ok (.obj [("items", .arr [.str "q1", .str "q2"])]))
          (fun _ _ _ qs => .ok (.obj [("items", .arr [.str (String.append "a-" (qs.getD 0 ""))])]))).answersReply
          (.obj []) (.obj []) "mixed" questions) = .ok answers ∧
      ([{ question := "q1", answer := "a-q1" }, { question := "q2", answer := "" }] : List QAItem)
        = (List.range questions.length).map (fun i =>
            { question := questions.getD i "", answer := answers.getD i "" }))
    ∧ (∃ e, generate_interview_questions (.ok (.obj [("items", .num 3)])) = .error e)
    ∧ generate_interview_questions
        (.ok (.obj [("items", .arr [.str "q", .num 2, .bool true, .null])]))
        = .ok ["q", "2", "True", "None"] :=
  ⟨interview_generation_two_calls.1 _ (.obj []) (.obj []) "mixed" 6 _ rfl,
   (interview_generation_two_calls.2.1 [("items", .num 3)] (by decide)).1,
   (interview_generation_two_calls.2.2 [("items", .arr [.str "q", .num 2, .bool true, .null])]
      [.str "q", .num 2, .bool true, .null] rfl).1⟩

/-! ## C6 -/

/-- C6 fails on the code in one corner: a server response with HTTP status 200
and Content-Type `application/pdf` but an *empty* body makes `pdf_bytes` falsy,
so `generate_enhanced_resume` stores `pdf_path = None` although the claimed iff
(status 200 ∧ pdf content type) holds. -/
theorem generate_enhanced_resume_empty_body_cex :
    ((HttpResponse.mk 200 "application/pdf" "").status == 200
      && pyStartsWith (HttpResponse.mk 200 "application/pdf" "").contentType
          "application/pdf") = true
    ∧ generate_enhanced_resume
        (EnhanceOracles.mk (some "<html></html>")
          (fun _ _ _ _ => .ok (.obj [("html", .str "<html>done</html>")]))
          (fun _ => some (HttpResponse.mk 200 "application/pdf" ""))
          "u1")
        (.obj []) (.obj []) [] true
      = .ok { html := "<html>done</html>", pdf_path := some none } := by
  exact ⟨by decide, rfl⟩

/-- C6 (amended): the PDF server is consulted only when `return_pdf` is true (for
`return_pdf = false` the result carries no `pdf_path` key and is independent of
the PDF oracle); when `return_pdf` is true and the call succeeds, `pdf_path` is a
saved `Resumes/resume-<uuid>.pdf` path iff the server answered with status 200, a
Content-Type starting with `application/pdf` and a *nonempty* body, and is `None`
otherwise; the generated `html` is part of every successful result. -/
theorem generate_enhanced_resume_pdf_behaviour
    (o : EnhanceOracles) (resume job : Json) (tips : List String) :
    (∀ res, generate_enhanced_resume o resume job tips false = .ok res →
       res.pdf_path = none
       ∧ (∀ post2, generate_enhanced_resume o resume job tips false
           = generate_enhanced_resume
               (EnhanceOracles.mk o.template o.llm post2 o.uuidHex) resume job tips false))
  ∧ (∀ res, generate_enhanced_resume o resume job tips true = .ok res →
       ∃ html, res.html = html
       ∧ call_groq_generate_html (o.llm (o.template.getD "") resume job tips) = .ok html
       ∧ (res.pdf_path = some (some ("Resumes/resume-" ++ o.uuidHex ++ ".pdf"))
          ∨ res.pdf_path = some none)
       ∧ (res.pdf_path = some (some ("Resumes/resume-" ++ o.uuidHex ++ ".pdf"))
          ↔ ∃ resp, o.post html = some resp
            ∧ (resp.status == 200 && pyStartsWith resp.contentType "application/pdf") = true
            ∧ resp.content ≠ "")) := by
  obtain ⟨tpl, llm, post, uuid⟩ := o
  dsimp only
  rcases tpl with _ | t
  · have he : ∀ (p2 : String → Option HttpResponse) (rp : Bool),
        generate_enhanced_resume (EnhanceOracles.mk none llm p2 uuid) resume job tips rp
          = .error "HTML template not found" := by
      intro p2 rp
      unfold generate_enhanced_resume
      simp
    constructor
    · intro res h
      rw [he post false] at h
      simp at h
    · intro res h
      rw [he post true] at h
      simp at h
  · have hredF : ∀ (p2 : String → Option HttpResponse),
        generate_enhanced_resume (EnhanceOracles.mk (some t) llm p2 uuid) resume job tips false
        = match call_groq_generate_html (llm t resume job tips) with
          | .error e => .error e
          | .ok html => .ok { html := html, pdf_path := none } := by
      intro p2
      unfold generate_enhanced_resume
      rcases hc : call_groq_generate_html (llm t resume job tips) with e | html <;> simp [hc]
    have hredT :
        generate_enhanced_resume (EnhanceOracles.mk (some t) llm post uuid) resume job tips true
        = match call_groq_generate_html (llm t resume job tips) with
          | .error e => .error e
          | .ok html =>
            match generate_pdf_via_puppeteer_api (post html) with
            | some bytes =>
              if bytes != "" then
                .ok { html := html
                    , pdf_path := some (some ("Resumes/resume-" ++ uuid ++ ".pdf")) }
              else .ok { html := html, pdf_path := some none }
            | none => .ok { html := html, pdf_path := some none } := by
      unfold generate_enhanced_resume
      rcases hc : call_groq_generate_html (llm t resume job tips) with e | html <;> simp [hc]
    constructor
    · intro res h
      rcases hc : call_groq_generate_html (llm t resume job tips) with e | html <;>
        rw [hredF post, hc] at h
      · simp at h
      · simp only [Except.ok.injEq] at h
        cases h
        exact ⟨rfl, fun p2 => (hredF post).trans (hredF p2).symm⟩
    · intro res h
      rcases hc : call_groq_generate_html (llm t resume job tips) with e | html <;>
        rw [hredT, hc] at h
      · simp at h
      · refine ⟨html, ?_⟩
        simp only at h
        rcases hp : post html with _ | resp <;> rw [hp] at h <;>
          simp only [generate_pdf_via_puppeteer_api] at h
        · cases h
          refine ⟨rfl, hc, Or.inr rfl, ?_, ?_⟩
          · intro habs
            simp at habs
          · rintro ⟨resp, hr, -, -⟩
            simp at hr
        · by_cases hok : (resp.status == 200 && pyStartsWith resp.contentType "application/pdf")
              = true
          · simp only [hok, if_true] at h
            by_cases hne : (resp.content != "") = true
            · simp only [hne, if_true] at h
              cases h
              exact ⟨rfl, hc, Or.inl rfl,
                ⟨fun _ => ⟨resp, rfl, hok, by simpa using hne⟩, fun _ => rfl⟩⟩
            · rw [Bool.not_eq_true] at hne
              simp only [hne, if_false] at h
              cases h
              refine ⟨rfl, hc, Or.inr rfl, ?_, ?_⟩
              · intro habs
                simp at habs
              · rintro ⟨resp2, hr2, -, hne2⟩
                injection hr2 with hr2
                subst hr2
                exact (hne2 (by simpa using hne)).elim
          · rw [Bool.not_eq_true] at hok
            simp only [hok, if_false] at h
            cases h
            refine ⟨rfl, hc, Or.inr rfl, ?_, ?_⟩
            · intro habs
              simp at habs
            · rintro ⟨resp2, hr2, hok2, -⟩
              injection hr2 with hr2
              subst hr2
              rw [hok] at hok2
              cases hok2

/-- Witness for the amended C6: with `return_pdf = true`, a 200/`application/pdf`
response with nonempty body yields the saved path, and the iff certifies it. -/
theorem generate_enhanced_resume_pdf_behaviour_witness :
    ∃ html,
      (EnhanceResult.mk "<html>done</html>"
          (some (some ("Resumes/resume-"
            ++ (EnhanceOracles.mk (some "<html></html>")
              (fun _ _ _ _ => .ok (.obj [("html", .str "<html>done</html>")]))
              (fun _ => some (HttpResponse.mk 200 "application/pdf" "%PDF-1.4"))
              "u2").uuidHex ++ ".pdf")))).html = html
      ∧ call_groq_generate_html
          ((EnhanceOracles.mk (some "<html></html>")
            (fun _ _ _ _ => .ok (.obj [("html", .str "<html>done</html>")]))
            (fun _ => some (HttpResponse.mk 200 "application/pdf" "%PDF-1.4"))
            "u2").llm
            ((EnhanceOracles.mk (some "<html></html>")
              (fun _ _ _ _ => .ok (.obj [("html", .str "<html>done</html>")]))
              (fun _ => some (HttpResponse.mk 200 "application/pdf" "%PDF-1.4"))
              "u2").template.getD "") (.obj []) (.obj []) []) = .ok html
      ∧ ((EnhanceResult.mk "<html>done</html>"
            (some (some ("Resumes/resume-"
              ++ (EnhanceOracles.mk (some "<html></html>")
                (fun _ _ _ _ => .ok (.obj [("html", .str "<html>done</html>")]))
                (fun _ => some (HttpResponse.mk 200 "application/pdf" "%PDF-1.4"))
                "u2").uuidHex ++ ".pdf")))).pdf_path
            = some (some ("Resumes/resume-"
              ++ (EnhanceOracles.mk (some "<html></html>")
                (fun _ _ _ _ => .ok (.obj [("html", .str "<html>done</html>")]))
                (fun _ => some (HttpResponse.mk 200 "application/pdf" "%PDF-1.4"))
                "u2").uuidHex ++ ".pdf"))
          ∨ (EnhanceResult.mk "<html>done</html>"
              (some (some ("Resumes/resume-"
                ++ (EnhanceOracles.mk (some "<html></html>")
                  (fun _ _ _ _ => .ok (.obj [("html", .str "<html>done</html>")]))
                  (fun _ => some (HttpResponse.mk 200 "application/pdf" "%PDF-1.4"))
                  "u2").uuidHex ++ ".pdf")))).pdf_path = some none)
      ∧ ((EnhanceResult.mk "<html>done</html>"
            (some (some ("Resumes/resume-"
              ++ (EnhanceOracles.mk (some "<html></html>")
                (fun _ _ _ _ => .ok (.obj [("html", .str "<html>done</html>")]))
                (fun _ => some (HttpResponse.mk 200 "application/pdf" "%PDF-1.4"))
                "u2").uuidHex ++ ".pdf")))).pdf_path
            = some (some ("Resumes/resume-"
              ++ (EnhanceOracles.mk (some "<html></html>")
                (fun _ _ _ _ => .ok (.obj [("html", .str "<html>done</html>")]))
                (fun _ => some (HttpResponse.mk 200 "application/pdf" "%PDF-1.4"))
                "u2").uuidHex ++ ".pdf"))
          ↔ ∃ resp,
              (EnhanceOracles.mk (some "<html></html>")
                (fun _ _ _ _ => .ok (.obj [("html", .str "<html>done</html>")]))
                (fun _ => some (HttpResponse.mk 200 "application/pdf" "%PDF-1.4"))
                "u2").post html = some resp
              ∧ (resp.status == 200 && pyStartsWith resp.contentType "application/pdf") = true
              ∧ resp.content ≠ "") :=
  (generate_enhanced_resume_pdf_behaviour
    (EnhanceOracles.mk (some "<html></html>")
      (fun _ _ _ _ => .ok (.obj [("html", .str "<html>done</html>")]))
      (fun _ => some (HttpResponse.mk 200 "application/pdf" "%PDF-1.4"))
      "u2") (.obj []) (.obj []) []).2 _ rfl

/-! ## C7 / C8 -/

/-- Every document in a collection reached by folding `register` requests over a
start state is either from the start state or carries the hash of some request's
password. -/
theorem foldl_register_password_origin (hash : String → String) :
    ∀ (evs : List AuthEvent) (st : UsersStore) (doc : UserDoc),
      doc ∈ evs.foldl (authStep hash) st →
      doc ∈ st ∨ ∃ p, AuthEvent.reg p ∈ evs ∧ doc.email = p.email
        ∧ doc.password = hash p.password := by
  intro evs
  induction evs with
  | nil => intro st doc hd; exact Or.inl hd
  | cons e tl ih =>
    intro st doc hd
    rw [List.foldl_cons] at hd
    rcases ih (authStep hash st e) doc hd with hmem | ⟨p, hp, he, hpw⟩
    · rcases e with ⟨p0⟩
      unfold authStep register at hmem
      dsimp only at hmem
      by_cases hex : st.any (fun d => d.email == p0.email) = true
      · rw [if_pos hex] at hmem
        exact Or.inl hmem
      · rw [if_neg hex] at hmem
        dsimp only at hmem
        rcases List.mem_append.mp hmem with hold | hnew
        · exact Or.inl hold
        · rcases List.mem_singleton.mp hnew with rfl
          exact Or.inr ⟨p0, List.mem_cons_self _ _, rfl, rfl⟩
    · exact Or.inr ⟨p, List.mem_cons_of_mem _ hp, he, hpw⟩

/-- C7: in every users collection reachable from the empty database through
`register` requests, each stored document's password field is
`hash_password` (bcrypt) of the password submitted in some request — never a
plaintext stored directly — and `login` authenticates exactly by finding the
document with the submitted email and checking the submitted password against
the stored hash via `verify_password`. -/
theorem users_store_passwords_hashed (hash : String → String)
    (verify : String → String → Bool) (events : List AuthEvent) :
    (∀ doc, doc ∈ runAuth hash events →
       ∃ p, AuthEvent.reg p ∈ events ∧ doc.email = p.email
         ∧ doc.password = hash p.password)
  ∧ (∀ (st : UsersStore) (email pw tok role : String),
       login verify st email pw = .ok (tok, role) →
       ∃ doc, st.find? (fun d => d.email == email) = some doc
         ∧ verify pw doc.password = true ∧ tok = doc.email ∧ role = doc.role) := by
  constructor
  · intro doc hd
    rcases foldl_register_password_origin hash events [] doc hd with hmem | hp
    · cases hmem
    · exact hp
  · intro st email pw tok role h
    unfold login at h
    rcases hf : st.find? (fun d => d.email == email) with _ | doc <;> rw [hf] at h <;>
      dsimp only at h
    · simp at h
    · by_cases hv : verify pw doc.password = true
      · rw [if_pos hv] at h
        cases h
        exact ⟨doc, hf, hv, rfl, rfl⟩
      · rw [if_neg hv] at h
        simp at h

/-- Witness for C7: after registering one user with password `"pw"` under the
hash oracle appending `"#h"`, the stored document carries the hash, and `login`
succeeds for the matching password under the corresponding verifier. -/
theorem users_store_passwords_hashed_witness :
    (∃ p, AuthEvent.reg p ∈ [AuthEvent.reg (RegisterPayload.mk "a@x" "pw" none "candidate")]
       ∧ (UserDoc.mk "a@x" ("pw" ++ "#h") none "candidate" true).email = p.email
       ∧ (UserDoc.mk "a@x" ("pw" ++ "#h") none "candidate" true).password
           = (fun s => s ++ "#h") p.password)
    ∧ (∃ doc,
        ([UserDoc.mk "a@x" ("pw" ++ "#h") none "candidate" true] : UsersStore).find?
            (fun d => d.email == "a@x") = some doc
        ∧ (fun pw h => h == pw ++ "#h") "pw" doc.password = true
        ∧ "a@x" = doc.email ∧ "candidate" = doc.role) :=
  ⟨(users_store_passwords_hashed (fun s => s ++ "#h") (fun pw h => h == pw ++ "#h")
      [AuthEvent.reg (RegisterPayload.mk "a@x" "pw" none "candidate")]).1
      (UserDoc.mk "a@x" ("pw" ++ "#h") none "candidate" true) (by decide),
   (users_store_passwords_hashed (fun s => s ++ "#h") (fun pw h => h == pw ++ "#h")
      [AuthEvent.reg (RegisterPayload.mk "a@x" "pw" none "candidate")]).2
      [UserDoc.mk "a@x" ("pw" ++ "#h") none "candidate" true] "a@x" "pw" "a@x" "candidate" rfl⟩

/-- C8: `register` raises HTTP 400 "User already exists" and leaves the
collection unchanged when a document with the submitted email exists; otherwise
it appends exactly one new document and returns its public view with
`is_active = true`. -/
theorem register_duplicate_email (hash : String → String) (st : UsersStore)
    (p : RegisterPayload) :
    ((∃ d ∈ st, d.email = p.email) →
       register hash st p = (st, .error { status := 400, detail := "User already exists" }))
  ∧ ((¬ ∃ d ∈ st, d.email = p.email) →
       register hash st p =
         (st ++ [{ email := p.email, password := hash p.password
                 , full_name := p.full_name, role := p.role, is_active := true }],
          .ok { id := toString st.length, email := p.email, full_name := p.full_name
              , role := p.role, is_active := true })
       ∧ (register hash st p).1.length = st.length + 1) := by
  have hany : st.any (fun d => d.email == p.email) = true ↔ ∃ d ∈ st, d.email = p.email := by
    rw [List.any_eq_true]
    constructor
    · rintro ⟨d, hd, hb⟩
      exact ⟨d, hd, by simpa using hb⟩
    · rintro ⟨d, hd, hb⟩
      exact ⟨d, hd, by simpa using hb⟩
  constructor
  · intro hex
    unfold register
    rw [if_pos (hany.mpr hex)]
  · intro hex
    have hne : ¬ st.any (fun d => d.email == p.email) = true := fun hc => hex (hany.mp hc)
    constructor
    · unfold register
      rw [if_neg hne]
    · unfold register
      rw [if_neg hne]
      simp

/-- Witness for C8: a duplicate email is rejected with the collection unchanged,
and a fresh email is appended as one document with `is_active = true`. -/
theorem register_duplicate_email_witness :
    (register (fun s => s ++ "#h")
        [UserDoc.mk "a@x" "h0" none "candidate" true]
        (RegisterPayload.mk "a@x" "pw" none "candidate")
      = ([UserDoc.mk "a@x" "h0" none "candidate" true],
         .error { status := 400, detail := "User already exists" }))
    ∧ (register (fun s => s ++ "#h")
         [UserDoc.mk "a@x" "h0" none "candidate" true]
         (RegisterPayload.mk "b@x" "pw2" none "recruiter")
       = ([UserDoc.mk "a@x" "h0" none "candidate" true,
           { email := "b@x", password := (fun s => s ++ "#h") "pw2"
           , full_name := none, role := "recruiter", is_active := true }],
          .ok { id := toString (1 : Nat), email := "b@x", full_name := none
              , role := "recruiter", is_active := true })
       ∧ (register (fun s => s ++ "#h")
           [UserDoc.mk "a@x" "h0" none "candidate" true]
           (RegisterPayload.mk "b@x" "pw2" none "recruiter")).1.length = 1 + 1) :=
  ⟨(register_duplicate_email (fun s => s ++ "#h")
      [UserDoc.mk "a@x" "h0" none "candidate" true]
      (RegisterPayload.mk "a@x" "pw" none "candidate")).1 (by decide),
   (register_duplicate_email (fun s => s ++ "#h")
      [UserDoc.mk "a@x" "h0" none "candidate" true]
      (RegisterPayload.mk "b@x" "pw2" none "recruiter")).2 (by decide)⟩

/-! ## C3 -/

deriving instance DecidableEq for Except

theorem bind_eq_ok_iff {ε α β : Type} {x : Except ε α} {f : α → Except ε β} {b : β} :
    (x >>= f) = .ok b ↔ ∃ a, x = .ok a ∧ f a = .ok b := by
  cases x <;> simp

theorem map_eq_ok_iff {ε α β : Type} {x : Except ε α} {f : α → β} {b : β} :
    (Except.map f x) = .ok b ↔ ∃ a, x = .ok a ∧ f a = b := by
  cases x <;> simp [Except.map]

theorem roundHalfEven_nonneg (x : Rat) (h : 0 ≤ x) : 0 ≤ roundHalfEven x := by
  have h1 : (0 : Int) ≤ ⌊x⌋ := Int.floor_nonneg.mpr h
  unfold roundHalfEven
  split_ifs <;> omega

theorem roundHalfEven_le_hundred (x : Rat) (h : x ≤ 100) : roundHalfEven x ≤ 100 := by
  have hfl : (⌊x⌋ : Rat) ≤ x := Int.floor_le x
  have hf : ⌊x⌋ ≤ 100 := by
    have : (⌊x⌋ : Rat) ≤ 100 := le_trans hfl h
    exact_mod_cast this
  unfold roundHalfEven
  split_ifs with h1 h2 h3
  · exact hf
  · have hx : (⌊x⌋ : Rat) < x - 1/2 := by linarith [not_lt.mp h1, h2]
    have : (⌊x⌋ : Rat) < 100 - 1/2 := by linarith
    have : (⌊x⌋ : Rat) < 100 := by linarith
    have : ⌊x⌋ < 100 := by exact_mod_cast this
    omega
  · exact hf
  · have hhalf : x - ⌊x⌋ = 1/2 := le_antisymm (not_lt.mp h2) (not_lt.mp h1)
    have : (⌊x⌋ : Rat) = x - 1/2 := by linarith
    have : (⌊x⌋ : Rat) < 100 := by linarith
    have : ⌊x⌋ < 100 := by exact_mod_cast this
    omega

theorem round2_nonneg (q : Rat) (h : 0 ≤ q) : 0 ≤ round2 q := by
  unfold round2
  have hr : (0 : Int) ≤ roundHalfEven (q * 100) :=
    roundHalfEven_nonneg (q * 100) (by positivity)
  have : (0 : Rat) ≤ (roundHalfEven (q * 100) : Rat) := by exact_mod_cast hr
  positivity

theorem round2_le_one (q : Rat) (h : q ≤ 1) : round2 q ≤ 1 := by
  unfold round2
  have hr : roundHalfEven (q * 100) ≤ 100 :=
    roundHalfEven_le_hundred (q * 100) (by linarith)
  rw [div_le_one (by norm_num)]
  exact_mod_cast hr

/-- A fully well-formed model analysis JSON used as concrete input. -/
def analysisT0 : Json := .obj
  [("overall_analysis", .obj
     [("overall_match_score", .num 80), ("skills_match", .num 30),
      ("experience_match", .num 40), ("education_match", .num 70),
      ("certifications_match", .num 20), ("missing_skills_count", .num 3),
      ("ats_score", .num 50)]),
   ("charts", .obj
     [("skill_match_distribution", .obj
        [("matched", .num 5), ("missing", .num 3), ("partially_matched", .num 2)]),
      ("experience_comparison", .obj
        [("required_experience_years", .num 4), ("candidate_experience_years", .num 6)]),
      ("word_cloud_keywords", .arr []),
      ("career_timeline", .arr []),
      ("resume_effectiveness", .obj [("gauge_score", .num 60)])]),
   ("profile_highlights", .obj [("publications", .arr []), ("volunteer_work", .arr [])]),
   ("improvement_suggestions", .obj
     [("textual_feedback", .arr []),
      ("recommended_courses", .arr []),
      ("skill_gap_closure_plan", .arr []),
      ("resume_optimization_tips", .arr [])])]

def resumeR0 : Json := .obj
  [("candidate_name", .str "Alex"), ("current_role", .str "Dev")]

def jobJ0 : Json := .obj
  [("job_title", .str "Engineer"), ("company", .obj [("name", .str "Acme")])]

set_option maxHeartbeats 1000000 in
/-- C3 fails on the code: the `/analyze` response's `metrics.quantitativeEvidence`
on this model JSON is `0.35 = round(min(1, (30+40)/200), 2)`, a value computed by
the backend that occurs nowhere among the numeric values of the model-produced
analysis JSON — so not every score in the response is taken from the model. -/
theorem analyze_metrics_not_copied_cex :
    Except.map (fun o => o.metrics.quantitativeEvidence)
        (map_template_to_candidate_analysis analysisT0 resumeR0 jobJ0)
      = .ok (7/20)
    ∧ ((7 : Rat)/20) ∉ numLeaves analysisT0 := by
  constructor
  · with_unfolding_all decide
  · with_unfolding_all decide

/-- C3 (amended): the `/analyze` metrics are not copied from the model JSON but
computed by the backend from the model's scores by fixed arithmetic:
`jobMatchScore = round(overall/100, 2)`, `atsScore = round(ats/100, 2)`,
`leadershipNarrative = round(min(1, (overall+gauge)/200), 2)` and
`quantitativeEvidence = round(min(1, (skills+experience)/200), 2)`; each lands in
[0, 1] when the model scores are in range. -/
theorem analyze_metrics_formulas
    (tf oaf chf ref : List (String × Json)) (r j : Json) (m : Metrics)
    (a b g sk ex : Rat)
    (hoa : lookupD tf "overall_analysis" (.obj []) = .obj oaf)
    (hch : lookupD tf "charts" (.obj []) = .obj chf)
    (hov : lookupD oaf "overall_match_score" (.num 0) = .num a)
    (hat : lookupD oaf "ats_score" (.num 0) = .num b)
    (hre : lookupD chf "resume_effectiveness" (.obj []) = .obj ref)
    (hga : lookupD ref "gauge_score" (.num 0) = .num g)
    (hsk : lookupD oaf "skills_match" (.num 0) = .num sk)
    (hex2 : lookupD oaf "experience_match" (.num 0) = .num ex)
    (hmap : Except.map (fun o => o.metrics)
        (map_template_to_candidate_analysis (.obj tf) r j) = .ok m) :
    m = { jobMatchScore := round2 (a / 100)
        , atsScore := round2 (b / 100)
        , leadershipNarrative := round2 (min 1 ((a + g) / 200))
        , quantitativeEvidence := round2 (min 1 ((sk + ex) / 200)) }
    ∧ (0 ≤ a → a ≤ 100 → 0 ≤ m.jobMatchScore ∧ m.jobMatchScore ≤ 1)
    ∧ (0 ≤ b → b ≤ 100 → 0 ≤ m.atsScore ∧ m.atsScore ≤ 1)
    ∧ (0 ≤ a → 0 ≤ g → 0 ≤ m.leadershipNarrative ∧ m.leadershipNarrative ≤ 1)
    ∧ (0 ≤ sk → 0 ≤ ex → 0 ≤ m.quantitativeEvidence ∧ m.quantitativeEvidence ≤ 1) := by
  obtain ⟨out, hout, hm⟩ := map_eq_ok_iff.mp hmap
  unfold map_template_to_candidate_analysis at hout
  simp only [Json.get, hoa, hch, hov, hat, hre, hga, hsk, hex2, pyFloat, pyAdd, pyInt,
    ok_bind, error_bind] at hout
  obtain ⟨cn, hcn, hout⟩ := bind_eq_ok_iff.mp hout
  obtain ⟨name, hname, hout⟩ := bind_eq_ok_iff.mp hout
  obtain ⟨cr, hcr, hout⟩ := bind_eq_ok_iff.mp hout
  obtain ⟨tr, htr, hout⟩ := bind_eq_ok_iff.mp hout
  obtain ⟨tc, htc, hout⟩ := bind_eq_ok_iff.mp hout
  obtain ⟨fb, hfb, hout⟩ := bind_eq_ok_iff.mp hout
  obtain ⟨ia, hia, hout⟩ := bind_eq_ok_iff.mp hout
  obtain ⟨ws, hws, hout⟩ := bind_eq_ok_iff.mp hout
  obtain ⟨wo, hwo, hout⟩ := bind_eq_ok_iff.mp hout
  obtain ⟨fl, hfl2, hout⟩ := bind_eq_ok_iff.mp hout
  obtain ⟨kp, hkp, hout⟩ := bind_eq_ok_iff.mp hout
  obtain ⟨tp, htp, hout⟩ := bind_eq_ok_iff.mp hout
  obtain ⟨te, hte, hout⟩ := bind_eq_ok_iff.mp hout
  obtain ⟨te2, hte2, hout⟩ := bind_eq_ok_iff.mp hout
  have hout2 := Except.ok.inj hout
  subst hout2
  have hmM : m = Metrics.mk (round2 (a / 100)) (round2 (b / 100))
      (round2 (min 1 ((a + g) / 200))) (round2 (min 1 ((sk + ex) / 200))) := hm.symm
  refine ⟨hmM, ?_, ?_, ?_, ?_⟩
  · intro h0 h1
    rw [hmM]
    exact ⟨round2_nonneg _ (by positivity),
           round2_le_one _ (by rw [div_le_one (by norm_num)]; linarith)⟩
  · intro h0 h1
    rw [hmM]
    exact ⟨round2_nonneg _ (by positivity),
           round2_le_one _ (by rw [div_le_one (by norm_num)]; linarith)⟩
  · intro h0 h1
    rw [hmM]
    refine ⟨round2_nonneg _ (le_min (by norm_num) (by positivity)), ?_⟩
    exact round2_le_one _ (min_le_left _ _)
  · intro h0 h1
    rw [hmM]
    refine ⟨round2_nonneg _ (le_min (by norm_num) (by positivity)), ?_⟩
    exact round2_le_one _ (min_le_left _ _)

/-- Witness for the amended C3 at an empty-template run: all four metrics are
`round2 0 = 0`, which the theorem's formulas predict. -/
theorem analyze_metrics_formulas_witness :
    (Metrics.mk 0 0 0 0)
      = { jobMatchScore := round2 ((0 : Rat) / 100)
        , atsScore := round2 ((0 : Rat) / 100)
        , leadershipNarrative := round2 (min 1 (((0 : Rat) + 0) / 200))
        , quantitativeEvidence := round2 (min 1 (((0 : Rat) + 0) / 200)) }
    ∧ ((0 : Rat) ≤ 0 → (0 : Rat) ≤ 100
        → 0 ≤ (Metrics.mk 0 0 0 0).jobMatchScore ∧ (Metrics.mk 0 0 0 0).jobMatchScore ≤ 1)
    ∧ ((0 : Rat) ≤ 0 → (0 : Rat) ≤ 100
        → 0 ≤ (Metrics.mk 0 0 0 0).atsScore ∧ (Metrics.mk 0 0 0 0).atsScore ≤ 1)
    ∧ ((0 : Rat) ≤ 0 → (0 : Rat) ≤ 0
        → 0 ≤ (Metrics.mk 0 0 0 0).leadershipNarrative
          ∧ (Metrics.mk 0 0 0 0).leadershipNarrative ≤ 1)
    ∧ ((0 : Rat) ≤ 0 → (0 : Rat) ≤ 0
        → 0 ≤ (Metrics.mk 0 0 0 0).quantitativeEvidence
          ∧ (Metrics.mk 0 0 0 0).quantitativeEvidence ≤ 1) :=
  analyze_metrics_formulas [] [] [] [] (.obj [("candidate_name", .str "A")]) (.obj [])
    (Metrics.mk 0 0 0 0) 0 0 0 0 0 rfl rfl rfl rfl rfl rfl rfl rfl
    (by with_unfolding_all decide)

/-! ## C10 -/

/-- The list starts with a whitespace character. -/
def wsHead : List Char → Bool
  | [] => false
  | c :: _ => isPySpace c

/-- No two adjacent characters are both whitespace. -/
def noDoubleWs : List Char → Bool
  | [] => true
  | c :: cs => (!(isPySpace c && wsHead cs)) && noDoubleWs cs

/-- Every whitespace character is the plain space `' '`. -/
def allWsSpace (l : List Char) : Bool :=
  l.all (fun c => !isPySpace c || c == ' ')

theorem replaceRunsAux_cons_pos_true (p : Char → Bool) (r c : Char) (cs : List Char)
    (h : p c = true) :
    replaceRunsAux p r true (c :: cs) = replaceRunsAux p r true cs := by
  simp [replaceRunsAux, h]

theorem replaceRunsAux_cons_pos_false (p : Char → Bool) (r c : Char) (cs : List Char)
    (h : p c = true) :
    replaceRunsAux p r false (c :: cs) = r :: replaceRunsAux p r true cs := by
  simp [replaceRunsAux, h]

theorem replaceRunsAux_cons_neg (p : Char → Bool) (r c : Char) (b : Bool) (cs : List Char)
    (h : p c = false) :
    replaceRunsAux p r b (c :: cs) = c :: replaceRunsAux p r false cs := by
  simp [replaceRunsAux, h]

theorem wsHead_replaceRunsAux_true (l : List Char) :
    wsHead (replaceRunsAux isPySpace ' ' true l) = false := by
  induction l with
  | nil => rfl
  | cons c cs ih =>
    by_cases h : isPySpace c = true
    · rw [replaceRunsAux_cons_pos_true _ _ _ _ h]
      exact ih
    · rw [replaceRunsAux_cons_neg _ _ _ _ _ (by simpa using h)]
      simpa [wsHead] using h

theorem noDoubleWs_replaceRunsAux (b : Bool) (l : List Char) :
    noDoubleWs (replaceRunsAux isPySpace ' ' b l) = true := by
  induction l generalizing b with
  | nil => rfl
  | cons c cs ih =>
    by_cases h : isPySpace c = true
    · cases b with
      | true =>
        rw [replaceRunsAux_cons_pos_true _ _ _ _ h]
        exact ih true
      | false =>
        rw [replaceRunsAux_cons_pos_false _ _ _ _ h]
        unfold noDoubleWs
        rw [wsHead_replaceRunsAux_true cs, ih true]
        decide
    · rw [replaceRunsAux_cons_neg _ _ _ _ _ (by simpa using h)]
      unfold noDoubleWs
      rw [ih false]
      simp [h]

theorem allWsSpace_replaceRunsAux (b : Bool) (l : List Char) :
    allWsSpace (replaceRunsAux isPySpace ' ' b l) = true := by
  induction l generalizing b with
  | nil => rfl
  | cons c cs ih =>
    by_cases h : isPySpace c = true
    · cases b with
      | true =>
        rw [replaceRunsAux_cons_pos_true _ _ _ _ h]
        exact ih true
      | false =>
        rw [replaceRunsAux_cons_pos_false _ _ _ _ h]
        show ((!isPySpace ' ' || ' ' == ' ')
          && (replaceRunsAux isPySpace ' ' true cs).all (fun c => !isPySpace c || c == ' ')) = true
        rw [Bool.and_eq_true]
        exact ⟨by decide, ih true⟩
    · rw [replaceRunsAux_cons_neg _ _ _ _ _ (by simpa using h)]
      show ((!isPySpace c || c == ' ')
        && (replaceRunsAux isPySpace ' ' false cs).all (fun c => !isPySpace c || c == ' ')) = true
      rw [Bool.and_eq_true]
      exact ⟨by simp [h], ih false⟩

theorem replaceRunsAux_of_no_match (p : Char → Bool) (r : Char) (l : List Char)
    (h : l.all (fun c => !p c) = true) :
    replaceRunsAux p r false l = l := by
  induction l with
  | nil => rfl
  | cons c cs ih =>
    rw [List.all_cons] at h
    rcases Bool.and_eq_true _ _ |>.mp h with ⟨h1, h2⟩
    rw [replaceRunsAux_cons_neg _ _ _ _ _ (by simpa using h1), ih h2]

theorem allWsSpace_no_other_ws (ch : Char) (hch : isPySpace ch = true) (hne : ch ≠ ' ')
    (l : List Char) (h : allWsSpace l = true) :
    l.all (fun c => !(c == ch)) = true := by
  unfold allWsSpace at h
  rw [List.all_eq_true] at *
  intro c hc
  have hcw := h c hc
  by_cases he : c = ch
  · subst he
    rw [hch] at hcw
    simp only [Bool.not_true, Bool.false_or] at hcw
    exact absurd (by simpa using hcw) hne
  · simpa using he

theorem replaceRuns2Aux_id (l : List Char) (h : noDoubleWs l = true) :
    replaceRuns2Aux isPySpace ' ' false l = l := by
  induction l with
  | nil => rfl
  | cons c cs ih =>
    unfold noDoubleWs at h
    rw [Bool.and_eq_true] at h
    obtain ⟨h1, h2⟩ := h
    by_cases hc : isPySpace c = true
    · have hw : wsHead cs = false := by
        rcases hws : wsHead cs
        · rfl
        · rw [hc, hws] at h1; simp at h1
      cases cs with
      | nil => simp [replaceRuns2Aux]
      | cons c2 cs2 =>
        have hc2 : isPySpace c2 = false := by simpa [wsHead] using hw
        rw [show replaceRuns2Aux isPySpace ' ' false (c :: c2 :: cs2)
            = c :: replaceRuns2Aux isPySpace ' ' false (c2 :: cs2) by
          simp [replaceRuns2Aux, hc, hc2]]
        rw [ih h2]
    · rw [show replaceRuns2Aux isPySpace ' ' false (c :: cs)
          = c :: replaceRuns2Aux isPySpace ' ' false cs by
        simp [replaceRuns2Aux, hc]]
      rw [ih h2]

theorem wsHead_dropWhile (l : List Char) :
    wsHead (l.dropWhile isPySpace) = false := by
  induction l with
  | nil => rfl
  | cons c cs ih =>
    by_cases hc : isPySpace c = true
    · rw [List.dropWhile_cons, if_pos hc]
      exact ih
    · rw [List.dropWhile_cons, if_neg hc]
      simpa [wsHead] using hc

theorem noDoubleWs_dropWhile (l : List Char) (h : noDoubleWs l = true) :
    noDoubleWs (l.dropWhile isPySpace) = true := by
  induction l with
  | nil => rfl
  | cons c cs ih =>
    unfold noDoubleWs at h
    rw [Bool.and_eq_true] at h
    by_cases hc : isPySpace c = true
    · rw [List.dropWhile_cons, if_pos hc]
      exact ih h.2
    · rw [List.dropWhile_cons, if_neg hc]
      unfold noDoubleWs
      rw [Bool.and_eq_true]
      exact ⟨h.1, h.2⟩

theorem allWsSpace_dropWhile (l : List Char) (h : allWsSpace l = true) :
    allWsSpace (l.dropWhile isPySpace) = true := by
  induction l with
  | nil => rfl
  | cons c cs ih =>
    unfold allWsSpace at h
    rw [List.all_cons, Bool.and_eq_true] at h
    by_cases hc : isPySpace c = true
    · rw [List.dropWhile_cons, if_pos hc]
      exact ih h.2
    · rw [List.dropWhile_cons, if_neg hc]
      unfold allWsSpace
      rw [List.all_cons, Bool.and_eq_true]
      exact ⟨h.1, h.2⟩

theorem dropWhile_id_of_wsHead (l : List Char) (h : wsHead l = false) :
    l.dropWhile isPySpace = l := by
  cases l with
  | nil => rfl
  | cons c cs =>
    rw [List.dropWhile_cons, if_neg (by simpa [wsHead] using h)]

theorem allWsSpace_reverse (l : List Char) : allWsSpace l.reverse = allWsSpace l := by
  simp [allWsSpace]

theorem noDoubleWs_iff_chain (l : List Char) :
    noDoubleWs l = true
      ↔ l.Chain' (fun a b => ¬(isPySpace a = true ∧ isPySpace b = true)) := by
  induction l with
  | nil => simp [noDoubleWs]
  | cons c cs ih =>
    cases cs with
    | nil => simp [noDoubleWs, wsHead]
    | cons c2 cs2 =>
      rw [List.chain'_cons]
      unfold noDoubleWs
      rw [Bool.and_eq_true]
      constructor
      · rintro ⟨h1, h2⟩
        refine ⟨?_, ih.mp h2⟩
        rintro ⟨ha, hb⟩
        rw [ha] at h1
        simp [wsHead, hb] at h1
      · rintro ⟨h1, h2⟩
        refine ⟨?_, ih.mpr h2⟩
        by_cases ha : isPySpace c = true
        · by_cases hb : isPySpace c2 = true
          · exact absurd ⟨ha, hb⟩ h1
          · simp [wsHead, ha, hb]
        · simp [wsHead, ha]

theorem noDoubleWs_reverse (l : List Char) :
    noDoubleWs l.reverse = true ↔ noDoubleWs l = true := by
  rw [noDoubleWs_iff_chain, noDoubleWs_iff_chain, List.chain'_reverse]
  constructor
  · intro h
    exact h.imp (fun a b hab => fun ⟨x, y⟩ => hab ⟨y, x⟩)
  · intro h
    exact h.imp (fun a b hab => fun ⟨x, y⟩ => hab ⟨y, x⟩)

theorem wsHead_of_prefix {l1 l : List Char} (h : l1 <+: l) (hl : wsHead l = false) :
    wsHead l1 = false := by
  cases l1 with
  | nil => rfl
  | cons a t =>
    obtain ⟨rest, hr⟩ := h
    rw [← hr] at hl
    simpa [wsHead] using hl

theorem replaceRunsAux_id (l : List Char) (hA : allWsSpace l = true)
    (hD : noDoubleWs l = true) :
    replaceRunsAux isPySpace ' ' false l = l
    ∧ (wsHead l = false → replaceRunsAux isPySpace ' ' true l = l) := by
  induction l with
  | nil => exact ⟨rfl, fun _ => rfl⟩
  | cons c cs ih =>
    unfold allWsSpace at hA
    rw [List.all_cons, Bool.and_eq_true] at hA
    unfold noDoubleWs at hD
    rw [Bool.and_eq_true] at hD
    obtain ⟨ih1, ih2⟩ := ih hA.2 hD.2
    constructor
    · by_cases hc : isPySpace c = true
      · have hsp : c = ' ' := by
          have := hA.1
          rw [hc] at this
          simpa using this
        have hw : wsHead cs = false := by
          have := hD.1
          rw [hc] at this
          simpa using this
        rw [replaceRunsAux_cons_pos_false _ _ _ _ hc, ih2 hw, hsp]
      · rw [replaceRunsAux_cons_neg _ _ _ _ _ (by simpa using hc), ih1]
    · intro hw
      have hc : isPySpace c = false := by simpa [wsHead] using hw
      rw [replaceRunsAux_cons_neg _ _ _ _ _ hc, ih1]

theorem cleanChars_props (l : List Char) :
    allWsSpace (cleanChars l) = true ∧ noDoubleWs (cleanChars l) = true
    ∧ wsHead (cleanChars l) = false ∧ wsHead (cleanChars l).reverse = false := by
  unfold cleanChars stripChars replaceRuns replaceRuns2
  have hA : allWsSpace (replaceRunsAux isPySpace ' ' false l) = true :=
    allWsSpace_replaceRunsAux false l
  have hD : noDoubleWs (replaceRunsAux isPySpace ' ' false l) = true :=
    noDoubleWs_replaceRunsAux false l
  rw [replaceRunsAux_of_no_match _ _ _
    (allWsSpace_no_other_ws '\n' (by decide) (by decide) _ hA)]
  rw [replaceRunsAux_of_no_match _ _ _
    (allWsSpace_no_other_ws '\t' (by decide) (by decide) _ hA)]
  rw [replaceRuns2Aux_id _ hD]
  have hd1A : allWsSpace ((replaceRunsAux isPySpace ' ' false l).dropWhile isPySpace) = true :=
    allWsSpace_dropWhile _ hA
  have hd1D : noDoubleWs ((replaceRunsAux isPySpace ' ' false l).dropWhile isPySpace) = true :=
    noDoubleWs_dropWhile _ hD
  have hd1H : wsHead ((replaceRunsAux isPySpace ' ' false l).dropWhile isPySpace) = false :=
    wsHead_dropWhile _
  have hd2A : allWsSpace
      (((replaceRunsAux isPySpace ' ' false l).dropWhile isPySpace).reverse.dropWhile isPySpace)
      = true :=
    allWsSpace_dropWhile _ (by rw [allWsSpace_reverse]; exact hd1A)
  have hd2D : noDoubleWs
      (((replaceRunsAux isPySpace ' ' false l).dropWhile isPySpace).reverse.dropWhile isPySpace)
      = true :=
    noDoubleWs_dropWhile _ ((noDoubleWs_reverse _).mpr hd1D)
  have hd2H : wsHead
      (((replaceRunsAux isPySpace ' ' false l).dropWhile isPySpace).reverse.dropWhile isPySpace)
      = false :=
    wsHead_dropWhile _
  refine ⟨by rw [allWsSpace_reverse]; exact hd2A, (noDoubleWs_reverse _).mpr hd2D, ?_,
    by rw [List.reverse_reverse]; exact hd2H⟩
  have hsuf :
      ((replaceRunsAux isPySpace ' ' false l).dropWhile isPySpace).reverse.dropWhile isPySpace
        <:+ ((replaceRunsAux isPySpace ' ' false l).dropWhile isPySpace).reverse :=
    List.dropWhile_suffix _
  have hpre :
      (((replaceRunsAux isPySpace ' ' false l).dropWhile isPySpace).reverse.dropWhile
        isPySpace).reverse
        <+: (replaceRunsAux isPySpace ' ' false l).dropWhile isPySpace := by
    have := hsuf.reverse
    rwa [List.reverse_reverse] at this
  exact wsHead_of_prefix hpre hd1H

theorem cleanChars_id (l : List Char) (hA : allWsSpace l = true) (hD : noDoubleWs l = true)
    (hH : wsHead l = false) (hT : wsHead l.reverse = false) :
    cleanChars l = l := by
  unfold cleanChars stripChars replaceRuns replaceRuns2
  rw [(replaceRunsAux_id l hA hD).1]
  rw [replaceRunsAux_of_no_match _ _ _
    (allWsSpace_no_other_ws '\n' (by decide) (by decide) _ hA)]
  rw [replaceRunsAux_of_no_match _ _ _
    (allWsSpace_no_other_ws '\t' (by decide) (by decide) _ hA)]
  rw [replaceRuns2Aux_id _ hD]
  rw [dropWhile_id_of_wsHead _ hH, dropWhile_id_of_wsHead _ hT, List.reverse_reverse]

/-- C10: `clean_text` is idempotent, and its output contains no run of two or
more consecutive whitespace characters and no leading or trailing whitespace. -/
theorem clean_text_idempotent_normalized (s : String) :
    clean_text (clean_text s) = clean_text s
    ∧ noDoubleWs (clean_text s).data = true
    ∧ wsHead (clean_text s).data = false
    ∧ wsHead (clean_text s).data.reverse = false := by
  obtain ⟨hA, hD, hH, hT⟩ := cleanChars_props s.data
  refine ⟨?_, hD, hH, hT⟩
  show String.mk (cleanChars (clean_text s).data) = clean_text s
  have hdata : (clean_text s).data = cleanChars s.data := rfl
  rw [hdata]
  unfold clean_text
  rw [cleanChars_id _ hA hD hH hT]
